import Mathlib

/-!
Verification development for the OneGov FIT reporting backend
(`R01_JSON_BackendStructure.js` and the `OneGovDataManager` cache layer).

JSON values are modelled by the inductive type `Json` below; JavaScript
numbers are modelled as exact decimal fractions (`Dec`).  JavaScript operations that
can throw (member access on `null`, calling a method that does not exist)
are modelled in the `Except JsErr` monad; operations the source guards so
that they cannot throw are modelled as total functions.  Objects are
modelled as association lists without duplicate keys (JSON.parse never
produces duplicates); property lookup takes the first binding.  The
prototype chain is not modelled: parsed JSON data owns no methods.
-/

namespace OneGov

/-- `10 ^ k` over the integers. -/
def pow10 : Nat → Int
  | 0 => 1
  | k + 1 => 10 * pow10 k

/-- An exact decimal fraction `m / 10 ^ e`, the number universe of this
dataset's JSON values (closed under the only arithmetic the source
performs: addition and `parseFloat`).  JavaScript's binary floating point
is idealised as exact decimal arithmetic, as the specification's
"within floating rounding" reading permits. -/
structure Dec where
  m : Int
  e : Nat
deriving DecidableEq

instance (n : Nat) : OfNat Dec n := ⟨⟨(n : Int), 0⟩⟩

/-- Strip trailing factors of ten so that sums have a canonical form. -/
def Dec.canon : Int → Nat → Dec
  | m, 0 => ⟨m, 0⟩
  | m, e + 1 => if m % 10 == 0 then Dec.canon (m / 10) e else ⟨m, e + 1⟩

/-- Exact decimal addition. -/
def Dec.add (a b : Dec) : Dec :=
  let e := max a.e b.e
  Dec.canon (a.m * pow10 (e - a.e) + b.m * pow10 (e - b.e)) e

/-- Whether the number is zero (its truthiness test). -/
def Dec.isZero (a : Dec) : Bool := a.m == 0

/-- Decimal display of a number, as JavaScript prints these values. -/
def Dec.display (a : Dec) : String :=
  if a.e == 0 then toString a.m
  else
    let ds := (toString a.m.natAbs).toList
    let ds := if ds.length ≤ a.e then List.replicate (a.e + 1 - ds.length) '0' ++ ds else ds
    let intLen := ds.length - a.e
    (if a.m < 0 then "-" else "") ++
      String.mk (ds.take intLen) ++ "." ++ String.mk (ds.drop intLen)

/-- A parsed JSON value. -/
inductive Json where
  | null
  | bool (b : Bool)
  | num (q : Dec)
  | str (s : String)
  | arr (elems : List Json)
  | obj (fields : List (String × Json))

/-- JavaScript truthiness of a JSON value (NaN does not arise in `Dec`). -/
def truthy : Json → Bool
  | .null => false
  | .bool b => b
  | .num q => !q.isZero
  | .str s => s != ""
  | .arr _ => true
  | .obj _ => true

/-- JavaScript `typeof` on a JSON value (`typeof null` is `"object"`). -/
def jsTypeof : Json → String
  | .null => "object"
  | .bool _ => "boolean"
  | .num _ => "number"
  | .str _ => "string"
  | .arr _ => "object"
  | .obj _ => "object"

def Json.isArr : Json → Bool
  | .arr _ => true
  | _ => false

/-- Whether a value is an actual object map (not an array, not null, not a
scalar). -/
def Json.isObjMap : Json → Bool
  | .obj _ => true
  | _ => false

def Json.isNull : Json → Bool
  | .null => true
  | _ => false

/-- Decimal digit test (`'0'` is 48). -/
def isDigitChar (c : Char) : Bool := 48 ≤ c.toNat && c.toNat ≤ 57

/-- Numeric value of a list of decimal digit characters. -/
def digitsVal (cs : List Char) : Nat :=
  cs.foldl (fun n c => 10 * n + (c.toNat - 48)) 0

/-- A string key that is a canonical array index, as JavaScript arrays use
("1" indexes, "01" does not; indices beyond 2^32 are not modelled). -/
def natKey? (k : String) : Option Nat :=
  match k.toList with
  | [] => none
  | [c] => if isDigitChar c then some (c.toNat - 48) else none
  | c :: rest =>
    if isDigitChar c && c.toNat != 48 && rest.all isDigitChar then
      some (digitsVal (c :: rest))
    else none

/-- Own-property lookup `v[k]` on a non-null value: object fields, array
elements and `length`, string characters and `length`; scalars have no own
properties.  `none` models `undefined`. -/
def jsIndex : Json → String → Option Json
  | .obj fields, k => (fields.find? (fun kv => kv.1 == k)).map (fun kv => kv.2)
  | .arr xs, k =>
      if k == "length" then some (.num ⟨(xs.length : Int), 0⟩)
      else
        match natKey? k with
        | some i => xs.get? i
        | none => none
  | .str s, k =>
      if k == "length" then some (.num ⟨(s.length : Int), 0⟩)
      else
        match natKey? k with
        | some i => (s.toList.get? i).map (fun c => .str (String.mk [c]))
        | none => none
  | _, _ => none

inductive JsErr where
  | typeError
  | external (msg : String)
deriving DecidableEq

/-- JavaScript member access `v.k`: throws a TypeError on null, otherwise an
own-property lookup. -/
def jsMember : Json → String → Except JsErr (Option Json)
  | .null, _ => .error .typeError
  | v, k => .ok (jsIndex v k)

/-- Optional chaining `o?.k` applied to the result of a previous lookup:
null and undefined short-circuit to undefined. -/
def optChainIndex : Option Json → String → Option Json
  | some .null, _ => none
  | some v, k => jsIndex v k
  | none, _ => none

/-- Truthiness of a possibly-undefined value. -/
def jsTruthyOpt : Option Json → Bool
  | some v => truthy v
  | none => false

/-- `Object.entries` / `Object.keys` / `Object.values` enumeration of a
value's own enumerable properties.  All call sites in the source first check
truthiness, so `null` never reaches this function. -/
def jsEntriesList : Json → List (String × Json)
  | .obj fields => fields
  | .arr xs => xs.enum.map (fun p => (toString p.1, p.2))
  | .str s => s.toList.enum.map (fun p => (toString p.1, Json.str (String.mk [p.2])))
  | _ => []

mutual

/-- JavaScript ToString on a JSON value. -/
def jsDisplay : Json → String
  | .null => "null"
  | .bool b => if b then "true" else "false"
  | .num q => q.display
  | .str s => s
  | .arr xs => jsArrayDisplay xs
  | .obj _ => "[object Object]"

/-- `Array.prototype.join` with the default comma separator. -/
def jsArrayDisplay : List Json → String
  | [] => ""
  | [x] => jsElemDisplay x
  | x :: xs => jsElemDisplay x ++ "," ++ jsArrayDisplay xs

/-- One joined element: null prints as the empty string. -/
def jsElemDisplay : Json → String
  | .null => ""
  | v => jsDisplay v

end

/-- ToPrimitive for the `+` operator: arrays and objects convert to their
string form, other values are already primitive. -/
def jsToPrim : Json → Json
  | .arr xs => .str (jsArrayDisplay xs)
  | .obj _ => .str "[object Object]"
  | v => v

/-- ToNumber on a non-string primitive. -/
def primToNum : Json → Dec
  | .bool b => if b then 1 else 0
  | .num q => q
  | _ => 0

/-- ToString on a primitive. -/
def primDisplay : Json → String
  | .null => "null"
  | .bool b => if b then "true" else "false"
  | .num q => q.display
  | .str s => s
  | v => jsDisplay v

/-- JavaScript `+` on two JSON values (no undefined operand occurs at the
call sites): string concatenation when either primitive is a string,
numeric addition otherwise. -/
def jsAdd (a b : Json) : Json :=
  match jsToPrim a, jsToPrim b with
  | .str x, pb => .str (x ++ primDisplay pb)
  | pa, .str y => .str (primDisplay pa ++ y)
  | pa, pb => .num (Dec.add (primToNum pa) (primToNum pb))

/-- Whitespace for trimming and `parseFloat` skipping. -/
def isWsChar (c : Char) : Bool :=
  c == ' ' || c == '\t' || c == '\n' || c == '\r'

/-- Minimal model of JavaScript `parseFloat` on a string: optional leading
whitespace and sign, decimal digits with an optional fractional part.
Exponent notation is not modelled (never produced by this dataset).
`none` models NaN. -/
def strParseFloat (s : String) : Option Dec :=
  let cs := s.toList.dropWhile isWsChar
  let signed : Bool × List Char :=
    match cs with
    | '-' :: t => (true, t)
    | '+' :: t => (false, t)
    | t => (false, t)
  let intPart := signed.2.takeWhile isDigitChar
  let rest := signed.2.dropWhile isDigitChar
  let fracPart : List Char :=
    match rest with
    | '.' :: t => t.takeWhile isDigitChar
    | _ => []
  if intPart.isEmpty && fracPart.isEmpty then none
  else
    let mag : Int := (digitsVal intPart : Int) * pow10 fracPart.length + (digitsVal fracPart : Int)
    some (Dec.canon (if signed.1 then -mag else mag) fracPart.length)

/-- JavaScript `parseFloat` applied to a JSON value (through ToString
coercion; `"null"`, `"true"`, `"[object Object]"` all give NaN). -/
def parseFloatJs : Json → Option Dec
  | .num q => some q
  | .str s => strParseFloat s
  | .arr xs => strParseFloat (jsArrayDisplay xs)
  | _ => none

/-- JavaScript `String.prototype.trim` (the common whitespace set). -/
def trimStr (s : String) : String :=
  String.mk (((s.toList.dropWhile isWsChar).reverse.dropWhile isWsChar).reverse)

/-- Split a character list on a separator character (`String.split`). -/
def splitOnChar (c : Char) : List Char → List (List Char)
  | [] => [[]]
  | x :: xs =>
    let r := splitOnChar c xs
    if x == c then [] :: r
    else
      match r with
      | h :: t => (x :: h) :: t
      | [] => [[x]]

/-- `path.split('.')`. -/
def splitDots (s : String) : List String :=
  (splitOnChar '.' s.toList).map String.mk

/-- Whether a string's first character has the given code point. -/
def headCharIs (s : String) (code : Nat) : Bool :=
  match s.toList with
  | c :: _ => c.toNat == code
  | [] => false

/-- `String.prototype.toLowerCase` for ASCII. -/
def strLower (s : String) : String :=
  String.mk (s.toList.map (fun c =>
    if 65 ≤ c.toNat && c.toNat ≤ 90 then Char.ofNat (c.toNat + 32) else c))

/-- One `reduce` step of `getNestedValue`:
`current && current[key] !== undefined ? current[key] : undefined`. -/
def resolveStep (current : Option Json) (key : String) : Option Json :=
  match current with
  | some c => if truthy c then jsIndex c key else none
  | none => none

/-- `getNestedValue` (R01_JSON_BackendStructure.js, SECTION 4): dotted-path
getter implemented with `path.split('.')` and `reduce`.
A pure function: it never throws and never modifies its arguments. -/
def getNestedValue (obj : Json) (path : String) : Option Json :=
  if path == "" || truthy obj == false then none
  else (splitDots path).foldl resolveStep (some obj)

/-- The specification's step-by-step reading of the resolver: walk the key
list one step at a time.  Proved equal to `getNestedValue`'s fold. -/
def resolveKeys : Json → List String → Option Json
  | v, [] => some v
  | v, k :: ks =>
      if truthy v then
        match jsIndex v k with
        | some w => resolveKeys w ks
        | none => none
      else none

/-- One column's entry of the declarative schema registry
(`COLUMN_SCHEMAS` in R01_JSON_BackendStructure.js); only the fields the
extraction, validation and lookup functions consult are modelled. -/
structure ColumnSchema where
  column : String
  columnIndex : Nat
  structurePattern : String
  primaryValuePath : Option String
  timeSeriesPath : Option String
  categoriesPath : Option String
  categoryValueType : Option String
  requiredFields : List String
  arrayItemKeyField : Option String := none
  arrayItemValueField : Option String := none
  itemValueField : Option String := none

/-- The schema registry `COLUMN_SCHEMAS`, transcribed entry by entry from
R01_JSON_BackendStructure.js SECTION 1. -/
def COLUMN_SCHEMAS : String → Option ColumnSchema
  | "obligations" => some
      { column := "D", columnIndex := 3,
        structurePattern := "PATTERN_A_SIMPLE_TOTALS",
        primaryValuePath := some "total_obligated",
        timeSeriesPath := some "fiscal_year_obligations",
        categoriesPath := none, categoryValueType := none,
        requiredFields := ["source_file", "fiscal_year_obligations", "total_obligated", "processed_date"] }
  | "smallBusiness" => some
      { column := "E", columnIndex := 4,
        structurePattern := "PATTERN_B_SUMMARY_WITH_OBJECT_MAP",
        primaryValuePath := some "summary.total_all_obligations",
        timeSeriesPath := none,
        categoriesPath := some "business_size_summaries",
        categoryValueType := some "object_map",
        requiredFields := ["source_file", "summary", "business_size_summaries", "processed_date"] }
  | "sumTier" => some
      { column := "F", columnIndex := 5,
        structurePattern := "PATTERN_B_SUMMARY_WITH_OBJECT_MAP",
        primaryValuePath := some "summary.total_all_obligations",
        timeSeriesPath := none,
        categoriesPath := some "tier_summaries",
        categoryValueType := some "object_map",
        requiredFields := ["source_file", "summary", "tier_summaries", "processed_date"] }
  | "sumType" => some
      { column := "G", columnIndex := 6,
        structurePattern := "PATTERN_B_SUMMARY_WITH_OBJECT_MAP",
        primaryValuePath := some "summary.total_all_obligations",
        timeSeriesPath := none,
        categoriesPath := some "sum_type_summaries",
        categoryValueType := some "object_map",
        requiredFields := ["source_file", "summary", "sum_type_summaries", "processed_date"] }
  | "contractVehicle" => some
      { column := "H", columnIndex := 7,
        structurePattern := "PATTERN_B_SUMMARY_WITH_OBJECT_MAP",
        primaryValuePath := some "summary.total_all_obligations",
        timeSeriesPath := none,
        categoriesPath := some "top_contract_summaries",
        categoryValueType := some "object_map",
        requiredFields := ["source_file", "summary", "top_contract_summaries", "processed_date"] }
  | "fundingDepartment" => some
      { column := "I", columnIndex := 8,
        structurePattern := "PATTERN_B_SUMMARY_WITH_OBJECT_MAP",
        primaryValuePath := some "summary.total_all_departments",
        timeSeriesPath := none,
        categoriesPath := some "top_10_department_summaries",
        categoryValueType := some "object_map",
        requiredFields := ["source_file", "summary", "top_10_department_summaries", "processed_date"] }
  | "oneGovDiscountedProducts" => some
      { column := "J", columnIndex := 9,
        structurePattern := "PATTERN_B_SUMMARY_WITH_OBJECT_MAP",
        primaryValuePath := some "summary.total_obligations_with_discounts",
        timeSeriesPath := none,
        categoriesPath := some "discount_categories",
        categoryValueType := some "object_map",
        requiredFields := ["source_file", "discount_status", "summary", "discount_categories", "processed_date"] }
  | "topRefPiid" => some
      { column := "K", columnIndex := 10,
        structurePattern := "PATTERN_C_SUMMARY_WITH_ARRAY",
        primaryValuePath := some "total_obligations",
        timeSeriesPath := some "yearly_totals",
        categoriesPath := some "top_10_reference_piids",
        categoryValueType := some "array",
        requiredFields := ["source_file", "total_obligations", "unique_ref_piids", "fiscal_years_covered", "yearly_totals", "top_10_reference_piids", "processed_date"],
        arrayItemKeyField := some "reference_piid",
        arrayItemValueField := some "dollars_obligated" }
  | "topPiid" => some
      { column := "L", columnIndex := 11,
        structurePattern := "PATTERN_C_SUMMARY_WITH_ARRAY",
        primaryValuePath := some "total_obligations",
        timeSeriesPath := some "yearly_totals",
        categoriesPath := some "top_10_piids",
        categoryValueType := some "array",
        requiredFields := ["source_file", "total_obligations", "unique_piids", "fiscal_years_covered", "yearly_totals", "top_10_piids", "processed_date"],
        arrayItemKeyField := some "piid",
        arrayItemValueField := some "dollars_obligated" }
  | "activeContracts" => some
      { column := "M", columnIndex := 12,
        structurePattern := "PATTERN_D_NESTED_FISCAL_YEAR",
        primaryValuePath := some "summary.total_obligations",
        timeSeriesPath := none,
        categoriesPath := some "expiring_by_quarter",
        categoryValueType := some "object_map",
        requiredFields := ["source_file", "summary", "expiring_by_quarter", "processed_date"] }
  | "expiringDiscountedProducts" => some
      { column := "N", columnIndex := 13,
        structurePattern := "PATTERN_E_NESTED_ENTITY",
        primaryValuePath := some "summary.grand_total_all_obligations",
        timeSeriesPath := none,
        categoriesPath := some "discount_contracts_expiring_by_quarter",
        categoryValueType := some "object_map",
        requiredFields := ["source_file", "sheet_type", "grouped_by", "discount_report_status", "summary", "discount_contracts_expiring_by_quarter", "processed_date"] }
  | "aiProduct" => some
      { column := "O", columnIndex := 14,
        structurePattern := "PATTERN_D_NESTED_FISCAL_YEAR",
        primaryValuePath := some "summary.grand_total_obligations",
        timeSeriesPath := none,
        categoriesPath := some "fiscal_year_summaries",
        categoryValueType := some "object_map",
        requiredFields := ["source_file", "ai_product_status", "summary", "fiscal_year_summaries", "processed_date"] }
  | "aiCategory" => some
      { column := "P", columnIndex := 15,
        structurePattern := "PATTERN_D_NESTED_FISCAL_YEAR",
        primaryValuePath := some "summary.grand_total_obligations",
        timeSeriesPath := none,
        categoriesPath := some "fiscal_year_summaries",
        categoryValueType := some "object_map",
        requiredFields := ["source_file", "ai_category_status", "summary", "fiscal_year_summaries", "processed_date"] }
  | "topBicProducts" => some
      { column := "Q", columnIndex := 16,
        structurePattern := "PATTERN_C_SUMMARY_WITH_ARRAY",
        primaryValuePath := some "summary.total_all_products",
        timeSeriesPath := some "yearly_totals",
        categoriesPath := some "top_25_products",
        categoryValueType := some "array",
        requiredFields := ["source_file", "summary", "yearly_totals", "top_25_products", "processed_date"],
        arrayItemKeyField := some "product_name",
        arrayItemValueField := some "total_price" }
  | "reseller" => some
      { column := "R", columnIndex := 17,
        structurePattern := "PATTERN_B_SUMMARY_WITH_OBJECT_MAP",
        primaryValuePath := some "summary.total_all_resellers",
        timeSeriesPath := none,
        categoriesPath := some "top_15_reseller_summaries",
        categoryValueType := some "object_map",
        requiredFields := ["source_file", "summary", "top_15_reseller_summaries", "processed_date"] }
  | "bicReseller" => some
      { column := "S", columnIndex := 18,
        structurePattern := "PATTERN_C_SUMMARY_WITH_ARRAY",
        primaryValuePath := some "summary.total_all_resellers",
        timeSeriesPath := some "yearly_totals",
        categoriesPath := some "top_15_resellers",
        categoryValueType := some "array",
        requiredFields := ["source_file", "summary", "yearly_totals", "top_15_resellers", "processed_date"],
        arrayItemKeyField := some "vendor_name",
        arrayItemValueField := some "total_sales" }
  | "bicOem" => some
      { column := "T", columnIndex := 19,
        structurePattern := "PATTERN_C_SUMMARY_WITH_ARRAY",
        primaryValuePath := some "summary.total_all_manufacturers",
        timeSeriesPath := some "yearly_totals",
        categoriesPath := some "top_15_manufacturers",
        categoryValueType := some "array",
        requiredFields := ["source_file", "summary", "yearly_totals", "top_15_manufacturers", "processed_date"],
        arrayItemKeyField := some "manufacturer_name",
        arrayItemValueField := some "total_sales" }
  | "fasOem" => some
      { column := "U", columnIndex := 20,
        structurePattern := "PATTERN_B_SUMMARY_WITH_OBJECT_MAP",
        primaryValuePath := some "summary.total_all_oems",
        timeSeriesPath := none,
        categoriesPath := some "top_10_oem_summaries",
        categoryValueType := some "object_map",
        requiredFields := ["source_file", "summary", "top_10_oem_summaries", "processed_date"],
        itemValueField := some "total_obligations" }
  | "fundingAgency" => some
      { column := "V", columnIndex := 21,
        structurePattern := "PATTERN_B_SUMMARY_WITH_OBJECT_MAP",
        primaryValuePath := some "summary.total_all_agencies",
        timeSeriesPath := none,
        categoriesPath := some "top_10_agency_summaries",
        categoryValueType := some "object_map",
        requiredFields := ["source_file", "summary", "top_10_agency_summaries", "processed_date"] }
  | "bicTopProductsPerAgency" => some
      { column := "W", columnIndex := 22,
        structurePattern := "PATTERN_E_NESTED_ENTITY",
        primaryValuePath := some "summary.grand_total",
        timeSeriesPath := some "yearly_totals",
        categoriesPath := some "top_10_agencies",
        categoryValueType := some "object_map",
        requiredFields := ["source_file", "summary", "yearly_totals", "top_10_agencies", "processed_date"] }
  | "oneGovTier" => some
      { column := "X", columnIndex := 23,
        structurePattern := "PATTERN_A_SIMPLE_TOTALS",
        primaryValuePath := some "total_obligated",
        timeSeriesPath := some "fiscal_year_tiers",
        categoriesPath := none, categoryValueType := none,
        requiredFields := ["mode_tier", "overall_tier", "total_obligated", "formatted_total", "average_obligations_per_year", "fiscal_year_tiers", "tier_counts", "tier_summary", "tier_definitions", "processed_date"] }
  | "usaiProfile" => some
      { column := "AC", columnIndex := 28,
        structurePattern := "PATTERN_F_FLAT_PROFILE",
        primaryValuePath := none, timeSeriesPath := none,
        categoriesPath := none, categoryValueType := none,
        requiredFields := ["oem_name"] }
  | _ => none

/-- The letter keys of `COLUMN_INDEX_MAP` in their enumeration order.
The map also holds numeric keys, but `validateRowJsonColumns` skips them
with an `isNaN` guard, so only the letters are iterated. -/
def COLUMN_INDEX_LETTERS : List String :=
  ["D", "E", "F", "G", "H", "I", "J", "K", "L", "M", "N", "O", "P", "Q",
   "R", "S", "T", "U", "V", "W", "X", "AC"]

/-- `COLUMN_INDEX_MAP` restricted to its letter keys. -/
def COLUMN_INDEX_MAP : String → Option String
  | "D" => some "obligations"
  | "E" => some "smallBusiness"
  | "F" => some "sumTier"
  | "G" => some "sumType"
  | "H" => some "contractVehicle"
  | "I" => some "fundingDepartment"
  | "J" => some "oneGovDiscountedProducts"
  | "K" => some "topRefPiid"
  | "L" => some "topPiid"
  | "M" => some "activeContracts"
  | "N" => some "expiringDiscountedProducts"
  | "O" => some "aiProduct"
  | "P" => some "aiCategory"
  | "Q" => some "topBicProducts"
  | "R" => some "reseller"
  | "S" => some "bicReseller"
  | "T" => some "bicOem"
  | "U" => some "fasOem"
  | "V" => some "fundingAgency"
  | "W" => some "bicTopProductsPerAgency"
  | "X" => some "oneGovTier"
  | "AC" => some "usaiProfile"
  | _ => none

/-- `forEach` + `push` over a list of fallible item computations: the first
thrown error aborts the whole loop. -/
def exceptMap (f : α → Except ε β) : List α → Except ε (List β)
  | [] => .ok []
  | a :: as =>
    match f a with
    | .ok b =>
      match exceptMap f as with
      | .ok bs => .ok (b :: bs)
      | .error e => .error e
    | .error e => .error e

/-- `forEach` over a list accumulating a state, where each step may throw. -/
def exceptFold (f : σ → α → Except ε σ) : σ → List α → Except ε σ
  | s, [] => .ok s
  | s, a :: as =>
    match f s a with
    | .ok s2 => exceptFold f s2 as
    | .error e => .error e

/-- `getPrimaryValue` (R01 SECTION 4). -/
def getPrimaryValue (jsonData : Json) (schemaKey : String) : Option Json :=
  match COLUMN_SCHEMAS schemaKey with
  | none => none
  | some schema =>
    match schema.primaryValuePath with
    | none => none
    | some pv => if pv == "" then none else getNestedValue jsonData pv

/-- The element shape produced by `getCategories`:
`{ name, value, percentage, fiscalYears }`, where the first three fields may
hold `undefined` (`none`) and `fiscalYears` is defaulted with `|| {}`. -/
structure Category where
  name : Option Json
  value : Option Json
  percentage : Option Json
  fiscalYears : Json

/-- `x || {}`: the value itself when truthy, otherwise a fresh empty object. -/
def jsOrEmptyObj : Option Json → Json
  | some f => if truthy f then f else .obj []
  | none => .obj []

/-- One iteration of the Pattern C (array) branch of `getCategories`:
`{ name: item[keyField], value: item[valueField],
   percentage: item.percentage_of_total,
   fiscalYears: item.fiscal_year_breakdown || {} }`.
Member access throws on a null item. -/
def catFromArrayItem (schema : ColumnSchema) (item : Json) : Except JsErr Category :=
  match jsMember item (schema.arrayItemKeyField.getD "undefined") with
  | .error e => .error e
  | .ok nm =>
    match jsMember item (schema.arrayItemValueField.getD "undefined") with
    | .error e => .error e
    | .ok v =>
      match jsMember item "percentage_of_total" with
      | .error e => .error e
      | .ok pct =>
        match jsMember item "fiscal_year_breakdown" with
        | .error e => .error e
        | .ok fyb => .ok ⟨nm, v, pct, jsOrEmptyObj fyb⟩

/-- One iteration of the Pattern B (object map) branch of `getCategories`:
the value is `data.total_obligations !== undefined ? data.total_obligations
: data.total` (the hard-coded Column U special case), independent of the
schema's `itemValueField`. -/
def catFromMapEntry (nm : String) (entryData : Json) : Except JsErr Category :=
  match jsMember entryData "total_obligations" with
  | .error e => .error e
  | .ok tObl =>
    match
      (match tObl with
       | some w => Except.ok (some w)
       | none => jsMember entryData "total") with
    | .error e => .error e
    | .ok v =>
      match jsMember entryData "percentage_of_total" with
      | .error e => .error e
      | .ok pct =>
        match jsMember entryData "fiscal_years" with
        | .error e => .error e
        | .ok fys => .ok ⟨some (.str nm), v, pct, jsOrEmptyObj fys⟩

/-- `getCategories` (R01 SECTION 4, lines 2891-2929).  Dispatches on the
schema's declared `categoryValueType`; a declared-array schema whose
container is not actually an array throws (`categories.forEach` is not a
function). -/
def getCategories (jsonData : Json) (schemaKey : String) : Except JsErr (List Category) :=
  match COLUMN_SCHEMAS schemaKey with
  | none => .ok []
  | some schema =>
    match schema.categoriesPath with
    | none => .ok []
    | some cpath =>
      if cpath == "" then .ok []
      else
        match getNestedValue jsonData cpath with
        | none => .ok []
        | some cats =>
          if truthy cats == false then .ok []
          else if schema.categoryValueType == some "array" then
            match cats with
            | .arr items => exceptMap (catFromArrayItem schema) items
            | _ => .error .typeError
          else
            exceptMap (fun kv : String × Json => catFromMapEntry kv.1 kv.2) (jsEntriesList cats)

/-- Lookup in the accumulated `fyTotals` object. -/
def fyLookup : List (String × Json) → String → Option Json
  | [], _ => none
  | kv :: rest, year => if kv.1 == year then some kv.2 else fyLookup rest year

/-- `fyTotals[year] = (fyTotals[year] || 0) + value`: update the existing
binding in place, or append a new one. -/
def fyUpsert : List (String × Json) → String → Json → List (String × Json)
  | [], year, v => [(year, jsAdd (Json.num 0) v)]
  | kv :: rest, year, v =>
    if kv.1 == year then (kv.1, jsAdd (if truthy kv.2 then kv.2 else Json.num 0) v) :: rest
    else kv :: fyUpsert rest year v

/-- Pattern C per-item accumulation in `getFiscalYearData`: for each year of
`item.fiscal_year_breakdown`, add
`yearData.obligations || yearData.total_price || yearData.total_sales || 0`. -/
def fyFromArrayItem (m : List (String × Json)) (item : Json) : Except JsErr (List (String × Json)) :=
  match jsMember item "fiscal_year_breakdown" with
  | .error e => .error e
  | .ok fyb =>
    match fyb with
    | some f =>
      if truthy f then
        exceptFold
          (fun acc yv =>
            match jsMember yv.2 "obligations" with
            | .error e => .error e
            | .ok o1 =>
              match jsMember yv.2 "total_price" with
              | .error e => .error e
              | .ok o2 =>
                match jsMember yv.2 "total_sales" with
                | .error e => .error e
                | .ok o3 =>
                  let v : Json :=
                    if jsTruthyOpt o1 then o1.getD .null
                    else if jsTruthyOpt o2 then o2.getD .null
                    else if jsTruthyOpt o3 then o3.getD .null
                    else .num 0
                  .ok (fyUpsert acc yv.1 v))
          m (jsEntriesList f)
      else .ok m
    | none => .ok m

/-- Fold a list of (year, value) contributions into the totals object. -/
def applyFy (m : List (String × Json)) (L : List (String × Json)) : List (String × Json) :=
  L.foldl (fun acc yv => fyUpsert acc yv.1 yv.2) m

/-- Pattern B per-entry accumulation in `getFiscalYearData`: when the entry
has a truthy `fiscal_years`, add every year's value into the totals. -/
def fyFromMapEntry (m : List (String × Json)) (entryData : Json) : Except JsErr (List (String × Json)) :=
  match jsMember entryData "fiscal_years" with
  | .error e => .error e
  | .ok fys =>
    match fys with
    | some f =>
      if truthy f then .ok (applyFy m (jsEntriesList f))
      else .ok m
    | none => .ok m

/-- `getFiscalYearData` (R01 SECTION 4, lines 2832-2875).  The built
`fyTotals` object is modelled with insertion-ordered keys; JavaScript would
additionally enumerate integer-like keys in ascending order, and every
property proved about the result is a key lookup, insensitive to order. -/
def getFiscalYearData (jsonData : Json) (schemaKey : String) : Except JsErr (Option Json) :=
  match COLUMN_SCHEMAS schemaKey with
  | none => .ok none
  | some schema =>
    let tsOpt : Option String :=
      match schema.timeSeriesPath with
      | some ts => if ts == "" then none else some ts
      | none => none
    match tsOpt with
    | some ts => .ok (getNestedValue jsonData ts)
    | none =>
      let cpOpt : Option String :=
        match schema.categoriesPath with
        | some cp => if cp == "" then none else some cp
        | none => none
      match cpOpt with
      | none => .ok none
      | some cp =>
        match getNestedValue jsonData cp with
        | none => .ok none
        | some cats =>
          if truthy cats == false then .ok none
          else
            match
              (match cats with
               | .arr items => exceptFold fyFromArrayItem [] items
               | _ => exceptFold (fun m (kv : String × Json) => fyFromMapEntry m kv.2) [] (jsEntriesList cats)) with
            | .error e => .error e
            | .ok fyTotals =>
              .ok (if fyTotals.isEmpty then none else some (.obj fyTotals))

/-- The result record of `validateJsonStructure`. -/
structure VResult where
  isValid : Bool
  errors : List String
  warnings : List String

/-- `validateJsonStructure` (R01 SECTION 5, lines 3073-3128). -/
def validateJsonStructure (jsonData : Json) (schemaKey : String) : VResult :=
  match COLUMN_SCHEMAS schemaKey with
  | none => ⟨false, ["Unknown schema key: " ++ schemaKey], []⟩
  | some schema =>
    if truthy jsonData == false || jsTypeof jsonData != "object" then
      ⟨false, ["JSON data is null or not an object"], []⟩
    else
      let requiredErrors := schema.requiredFields.filterMap (fun field =>
        if (getNestedValue jsonData field).isNone then
          some ("Missing required field: " ++ field)
        else none)
      let primaryWarnings :=
        match schema.primaryValuePath with
        | some pv =>
          if pv == "" then []
          else
            match getNestedValue jsonData pv with
            | none => ["Primary value path " ++ pv ++ " not found"]
            | some v =>
              if jsTypeof v != "number" then
                ["Primary value is not a number: " ++ jsTypeof v]
              else []
        | none => []
      let catChecked : List String × List String :=
        match schema.categoriesPath with
        | some cp =>
          if cp == "" then ([], [])
          else
            match getNestedValue jsonData cp with
            | none => ([], ["Categories path " ++ cp ++ " not found"])
            | some cats =>
              if schema.categoryValueType == some "array" && !cats.isArr then
                (["Expected array at " ++ cp ++ ", got " ++ jsTypeof cats], [])
              else if schema.categoryValueType == some "object_map" &&
                        (cats.isArr || jsTypeof cats != "object") then
                (["Expected object at " ++ cp ++ ", got " ++
                    (if cats.isArr then "array" else jsTypeof cats)], [])
              else ([], [])
        | none => ([], [])
      ⟨requiredErrors.isEmpty && catChecked.1.isEmpty,
       requiredErrors ++ catChecked.1,
       primaryWarnings ++ catChecked.2⟩

/-- A raw spreadsheet cell as delivered by the row source: empty, a string,
a number, or an already-materialised object (e.g. a Date). -/
inductive Cell where
  | empty
  | str (s : String)
  | num (q : Dec)
  | objv (j : Json)

def cellTruthy : Cell → Bool
  | .empty => false
  | .str s => s != ""
  | .num q => !q.isZero
  | .objv _ => true

/-- `String(value)` for a cell (only reached for truthy non-object cells). -/
def cellToString : Cell → String
  | .str s => s
  | .num q => q.display
  | .objv j => jsDisplay j
  | .empty => ""

/-- `value.trim()`: throws a TypeError unless the cell holds a string. -/
def cellTrim : Cell → Except JsErr String
  | .str s => .ok (trimStr s)
  | _ => .error .typeError

/-- The result record of `parseAndValidateJson`. -/
structure PVResult where
  isValid : Bool
  data : Option Json
  error : Option String

/-- `parseAndValidateJson` (R01 SECTION 5, lines 3136-3152), parameterised
by the `JSON.parse` oracle `p` (an `.error` models a thrown SyntaxError). -/
def parseAndValidateJson (p : String → Except String Json) (jsonString : Cell) : PVResult :=
  match jsonString with
  | .str s =>
    if s == "" then ⟨false, none, some "Input is not a string"⟩
    else
      let trimmed := trimStr s
      if !(headCharIs trimmed 123) then
        ⟨false, none, some "String does not start with \x7b"⟩
      else
        match p trimmed with
        | .ok d => ⟨true, some d, none⟩
        | .error m => ⟨false, none, some m⟩
  | _ => ⟨false, none, some "Input is not a string"⟩

/-- One per-column result of `validateRowJsonColumns`. -/
inductive RowStatus where
  | emptyCell
  | parseError (error : Option String)
  | validated (ok : Bool) (errors warnings : List String)

/-- One letter-key iteration of `validateRowJsonColumns`. -/
def rowStatusFor (p : String → Except String Json) (rowData : List Cell) (letter : String) :
    Except JsErr (String × RowStatus) :=
  match COLUMN_INDEX_MAP letter with
  | none => .error .typeError
  | some schemaKey =>
    match COLUMN_SCHEMAS schemaKey with
    | none => .error .typeError
    | some schema =>
      let cellValue := rowData.getD schema.columnIndex Cell.empty
      if cellTruthy cellValue == false then .ok (letter, .emptyCell)
      else
        match cellTrim cellValue with
        | .error e => .error e
        | .ok t =>
          if t == "" then .ok (letter, .emptyCell)
          else
            let pr := parseAndValidateJson p cellValue
            if pr.isValid == false then .ok (letter, .parseError pr.error)
            else
              let vr := validateJsonStructure (pr.data.getD .null) schemaKey
              .ok (letter, .validated vr.isValid vr.errors vr.warnings)

/-- `validateRowJsonColumns` (R01 SECTION 5, lines 3160-3191): iterates the
letter keys of `COLUMN_INDEX_MAP` (numeric keys are skipped by the `isNaN`
guard) and collects one status per column letter. -/
def validateRowJsonColumns (p : String → Except String Json) (rowData : List Cell) :
    Except JsErr (List (String × RowStatus)) :=
  exceptMap (rowStatusFor p rowData) COLUMN_INDEX_LETTERS

/-- The body of `OneGovDataManager.parseJSON`'s `try` block (part_001 lines
516-532), with a thrown `JSON.parse` SyntaxError propagated as `.error`.
The leading `if (!value) return null;` sits before the `try`. -/
def parseJSONAttempt (p : String → Except String Json) (value : Cell) : Except String (Option Json) :=
  if cellTruthy value == false then .ok none
  else
    match value with
    | .objv j => .ok (some j)
    | _ =>
      let strValue := trimStr (cellToString value)
      if strValue == "" || strValue == "\x7b\x7d" || strValue == "[]" then .ok none
      else
        match p strValue with
        | .ok d => .ok (some d)
        | .error e => .error e

/-- `OneGovDataManager.parseJSON`: the `catch` converts any parse error into
a null result, so the function as a whole never throws. -/
def parseJSON (p : String → Except String Json) (value : Cell) : Option Json :=
  match parseJSONAttempt p value with
  | .ok r => r
  | .error _ => none

/-- Sum of `Object.values(fyObj).reduce((sum, val) => sum + (parseFloat(val) || 0), 0)`. -/
def fyValuesSum (fyObj : Json) : Dec :=
  (jsEntriesList fyObj).foldl (fun s kv => Dec.add s ((parseFloatJs kv.2).getD 0)) 0

/-- `OneGovDataManager.extractTotalObligations` (part_001 lines 539-555):
truthiness-chained fallbacks over the obligations JSON only. -/
def extractTotalObligations (obligationsJson : Json) : Json :=
  if truthy obligationsJson == false then .num 0
  else
    let t := jsIndex obligationsJson "total_obligated"
    if jsTruthyOpt t then t.getD .null
    else
      let st := optChainIndex (jsIndex obligationsJson "summary") "total_obligations"
      if jsTruthyOpt st then st.getD .null
      else
        let fy := jsIndex obligationsJson "fiscal_year_obligations"
        if jsTruthyOpt fy then .num (fyValuesSum (fy.getD .null))
        else .num 0

/-- A value stored on a loaded entity: a parsed JSON column (null when the
cell was empty or malformed) or a raw passthrough cell. -/
inductive EntityVal where
  | json (j : Json)
  | raw (c : Cell)

/-- Dynamic field read `entity[key]` for a JSON column; a missing or raw
field reads as null (both null and undefined behave identically at every
use site: optional chaining and truthiness tests). -/
def entityJson (fields : List (String × EntityVal)) (k : String) : Json :=
  match fields.find? (fun kv => kv.1 == k) with
  | some (_, .json j) => j
  | _ => .null

/-- `OneGovDataManager.extractTier`: `entity.oneGovTier?.mode_tier`, else
`entity.sumTier?.tier`, else null. -/
def extractTier (fields : List (String × EntityVal)) : Json :=
  let mt := optChainIndex (some (entityJson fields "oneGovTier")) "mode_tier"
  if jsTruthyOpt mt then mt.getD .null
  else
    let st := optChainIndex (some (entityJson fields "sumTier")) "tier"
    if jsTruthyOpt st then st.getD .null
    else .null

/-- `OneGovDataManager.checkAIProducts`:
`!!(entity.aiProduct && Object.keys(entity.aiProduct).length > 0)`. -/
def checkAIProducts (fields : List (String × EntityVal)) : Bool :=
  let ap := entityJson fields "aiProduct"
  truthy ap && !(jsEntriesList ap).isEmpty

/-- A loaded entity row with its derived fields (part_001 lines 461-487). -/
structure Entity where
  id : String
  name : String
  etype : String
  rowIndex : Nat
  fields : List (String × EntityVal)
  totalObligations : Json
  tier : Json
  hasAIProducts : Bool

/-- The JSON-bearing logical columns (`OneGovDataManager.isJsonColumn`). -/
def jsonColumns : List String :=
  ["obligations", "smallBusiness", "sumTier", "sumType",
   "contractVehicle", "fundingDepartment", "discount",
   "topRefPiid", "topPiid", "activeContracts", "discountOfferings",
   "aiProduct", "aiCategory", "topBicProducts", "reseller",
   "bicReseller", "bicOem", "fasOem", "fundingAgency",
   "bicTopProductsPerAgency", "oneGovTier"]

def isJsonColumn (columnName : String) : Bool :=
  jsonColumns.contains columnName

/-- The shared tail (columns D..AB) of the three per-sheet column mappings. -/
def commonColumns : List (String × Nat) :=
  [("obligations", 4), ("smallBusiness", 5), ("sumTier", 6), ("sumType", 7),
   ("contractVehicle", 8), ("fundingDepartment", 9), ("discount", 10),
   ("topRefPiid", 11), ("topPiid", 12), ("activeContracts", 13),
   ("discountOfferings", 14), ("aiProduct", 15), ("aiCategory", 16),
   ("topBicProducts", 17), ("reseller", 18), ("bicReseller", 19),
   ("bicOem", 20), ("fasOem", 21), ("fundingAgency", 22),
   ("bicTopProductsPerAgency", 23), ("oneGovTier", 24),
   ("fasDataTable", 25), ("fasTimestamp", 26), ("bicDataTable", 27),
   ("bicTimestamp", 28)]

structure SheetConfig where
  sheetName : String
  columns : List (String × Nat)

/-- `OneGovDataManager._initializeColumnMappings` (1-based column indices). -/
def columnMappings : String → Option SheetConfig
  | "agency" => some ⟨"Agency", ("agencyCode", 1) :: ("name", 2) :: ("parentCompany", 3) :: commonColumns⟩
  | "oem" => some ⟨"OEM", ("duns", 1) :: ("name", 2) :: ("parentCompany", 3) :: commonColumns⟩
  | "vendor" => some ⟨"Vendor", ("uei", 1) :: ("name", 2) :: ("parentCompany", 3) :: commonColumns⟩
  | _ => none

/-- Outcome of asking the external spreadsheet for one sheet's cells:
the sheet may be missing (`getSheetByName` returns null, handled by the
source), or the read may throw, or it delivers the rows. -/
inductive SheetRead where
  | missing
  | failure (msg : String)
  | rows (values : List (List Cell))

/-- The external collaborators of one load attempt: the spreadsheet open
call, the per-sheet reads, and the `JSON.parse` primitive. -/
structure Env where
  openResult : Except String Unit
  sheet : String → SheetRead
  jsonParse : String → Except String Json

/-- Builds one entity from a row (part_001 lines 461-487): dynamic columns
plus the derived fields computed by the extractors. -/
def buildEntity (p : String → Except String Json) (config : SheetConfig)
    (entityType : String) (i : Nat) (row : List Cell) (nameTrimmed : String) : Entity :=
  let fields := config.columns.filterMap (fun kv =>
    if kv.1 == "name" then none
    else
      let v := row.getD (kv.2 - 1) Cell.empty
      if isJsonColumn kv.1 then
        some (kv.1, EntityVal.json ((parseJSON p v).getD .null))
      else some (kv.1, EntityVal.raw v))
  { id := entityType ++ "_" ++ toString i,
    name := nameTrimmed,
    etype := entityType,
    rowIndex := i,
    fields := fields,
    totalObligations := extractTotalObligations (entityJson fields "obligations"),
    tier := extractTier fields,
    hasAIProducts := checkAIProducts fields }

/-- `OneGovDataManager.loadEntitySheet` (part_001 lines 441-492): a missing
sheet yields an empty list; a failed read propagates; rows with a falsy
name are skipped, and `name.trim()` throws on a truthy non-string name. -/
def loadEntitySheet (env : Env) (entityType : String) : Except JsErr (List Entity) :=
  match columnMappings entityType with
  | none => .error .typeError
  | some config =>
    match env.sheet config.sheetName with
    | .missing => .ok []
    | .failure m => .error (.external m)
    | .rows values =>
      let nameCol := ((config.columns.find? (fun kv => kv.1 == "name")).map (fun kv => kv.2)).getD 0
      exceptFold
        (fun acc p2 =>
          let nameCell := p2.2.getD (nameCol - 1) Cell.empty
          if cellTruthy nameCell == false then .ok acc
          else
            match cellTrim nameCell with
            | .error e => .error e
            | .ok nameTrimmed =>
              if nameTrimmed == "" then .ok acc
              else .ok (acc ++ [buildEntity env.jsonParse config entityType p2.1 p2.2 nameTrimmed]))
        [] (values.enum.drop 1)

/-- The manager's cache record (`this.cache`). -/
structure Cache where
  agencies : Option (List Entity)
  oems : Option (List Entity)
  vendors : Option (List Entity)
  lastUpdated : Option Int
  isLoading : Bool

/-- `this.TTL`: two minutes in milliseconds. -/
def TTL : Int := 2 * 60 * 1000

/-- `OneGovDataManager.needsRefresh` (part_001 lines 387-391).
`!this.cache.lastUpdated` is a JavaScript truthiness test, so a stored
timestamp of 0 also counts as unset. -/
def needsRefresh (now : Int) (c : Cache) : Bool :=
  match c.lastUpdated with
  | none => true
  | some t =>
    if t == 0 then true
    else if c.agencies.isNone || c.oems.isNone || c.vendors.isNone then true
    else decide (TTL < now - t)

/-- `OneGovDataManager.loadAllData` (part_001 lines 398-433).  The three
sheet loads assign into the cache one at a time; the `catch` only clears
`isLoading` and rethrows, so assignments made before a failure survive. -/
def loadAllData (env : Env) (now : Int) (forceRefresh : Bool) (c : Cache) :
    Cache × Except JsErr Unit :=
  if !forceRefresh && !needsRefresh now c then (c, .ok ())
  else if c.isLoading then (c, .ok ())
  else
    match env.openResult with
    | .error m => ({ c with isLoading := false }, .error (.external m))
    | .ok _ =>
      match loadEntitySheet env "agency" with
      | .error e => ({ c with isLoading := false }, .error e)
      | .ok ags =>
        match loadEntitySheet env "oem" with
        | .error e => ({ c with agencies := some ags, isLoading := false }, .error e)
        | .ok oms =>
          match loadEntitySheet env "vendor" with
          | .error e =>
            ({ c with agencies := some ags, oems := some oms, isLoading := false }, .error e)
          | .ok vns =>
            ({ agencies := some ags, oems := some oms, vendors := some vns,
               lastUpdated := some now, isLoading := false }, .ok ())

/-- The switch of `getEntities`: the cached list object for the requested
type (possibly null); the default branch spreads all three lists and throws
if any is null. -/
def selectEntities (c : Cache) (entityType : Option String) :
    Except JsErr (Option (List Entity)) :=
  match entityType.map strLower with
  | some "agency" => .ok c.agencies
  | some "oem" => .ok c.oems
  | some "vendor" => .ok c.vendors
  | _ =>
    match c.agencies, c.oems, c.vendors with
    | some a, some o, some v => .ok (some (a ++ o ++ v))
    | _, _, _ => .error .typeError

/-- `OneGovDataManager.getEntities` (part_001 lines 587-601). -/
def getEntities (env : Env) (now : Int) (entityType : Option String) (forceRefresh : Bool)
    (c : Cache) : Cache × Except JsErr (Option (List Entity)) :=
  match loadAllData env now forceRefresh c with
  | (c2, .error e) => (c2, .error e)
  | (c2, .ok _) => (c2, selectEntities c2 entityType)

/-! ### Specification-side definitions

For the refinement-flavoured claims, the spec's wording is formalised in a
second, clearly named definition so that it can be compared with the
behaviour embedded from the source. -/

/-- Modelled from the spec's words (claim C2): the validator yields
valid=false exactly when a required field is missing or the categories
container's runtime shape (array vs object map) disagrees with the schema's
declared container kind. -/
def specClaimValid (jsonData : Json) (schema : ColumnSchema) : Bool :=
  let requiredOk := schema.requiredFields.all (fun f => (getNestedValue jsonData f).isSome)
  let shapeOk :=
    match schema.categoriesPath with
    | some cp =>
      match getNestedValue jsonData cp with
      | some cats =>
        if schema.categoryValueType == some "array" then cats.isArr
        else if schema.categoryValueType == some "object_map" then cats.isObjMap
        else true
      | none => true
    | none => true
  requiredOk && shapeOk

/-- The amended claim C2's error condition: a required field is missing, or
the categories container is present and its runtime shape disagrees with
the declared container kind — where a null container at an object-map path
is accepted (JavaScript `typeof null === 'object'`). -/
def specAmendedInvalid (jsonData : Json) (schema : ColumnSchema) : Bool :=
  schema.requiredFields.any (fun f => (getNestedValue jsonData f).isNone) ||
    (match schema.categoriesPath with
     | some cp =>
       if cp == "" then false
       else
         match getNestedValue jsonData cp with
         | some cats =>
           (schema.categoryValueType == some "array" && !cats.isArr) ||
             (schema.categoryValueType == some "object_map" && !(cats.isObjMap || cats.isNull))
         | none => false
     | none => false)

/-- Modelled from the spec's words (claim C5): a map entry's value is read
from the field named by the schema's `itemValueField`, defaulting to
`total`. -/
def specItemValue (schema : ColumnSchema) (entryData : Json) : Option Json :=
  jsIndex entryData (schema.itemValueField.getD "total")

/-- Modelled from the spec's words (claim C4): `totalObligations` is the
first non-absent of the obligations column's primary value
(`total_obligated`), the tier column's total (`total_obligated`, the
`oneGovTier` schema's primary path), and the obligations column's summed
fiscal years. -/
def specTotalObligations (obligations tierJson : Json) : Option Json :=
  match jsIndex obligations "total_obligated" with
  | some v => some v
  | none =>
    match jsIndex tierJson "total_obligated" with
    | some v => some v
    | none =>
      match jsIndex obligations "fiscal_year_obligations" with
      | some fy => some (.num (fyValuesSum fy))
      | none => none

/-- The derived-field assignment at part_001 line 484: only the entity's
obligations column is handed to the extractor. -/
def deriveTotalObligations (e : Entity) : Json :=
  extractTotalObligations (entityJson e.fields "obligations")

/-- The value `getCategories` stores for a map entry:
`total_obligations` when defined, else `total` (source line 2917). -/
def mapEntryValue (entryData : Json) : Option Json :=
  match jsIndex entryData "total_obligations" with
  | some v => some v
  | none => jsIndex entryData "total"

/-- The total (non-throwing) form of one Pattern B category element,
realised whenever the entry is not null. -/
def catFromMapEntryTotal (nm : String) (entryData : Json) : Category :=
  ⟨some (.str nm), mapEntryValue entryData,
   jsIndex entryData "percentage_of_total",
   jsOrEmptyObj (jsIndex entryData "fiscal_years")⟩

/-- The total (non-throwing) form of one Pattern C category element,
realised whenever the item is not null. -/
def catFromArrayItemTotal (schema : ColumnSchema) (item : Json) : Category :=
  ⟨jsIndex item (schema.arrayItemKeyField.getD "undefined"),
   jsIndex item (schema.arrayItemValueField.getD "undefined"),
   jsIndex item "percentage_of_total",
   jsOrEmptyObj (jsIndex item "fiscal_year_breakdown")⟩

/-- Whether the categories container matches the schema's declared kind
closely enough for extraction not to throw: an actual array of non-null
items for a declared-array schema, and no null entry values otherwise. -/
def containerWellFormed (schema : ColumnSchema) (cats : Json) : Bool :=
  if schema.categoryValueType == some "array" then
    match cats with
    | .arr items => items.all (fun item => !item.isNull)
    | _ => false
  else (jsEntriesList cats).all (fun kv => !kv.2.isNull)

/-- No duplicate keys in an association list. -/
def keysNodup : List (String × Json) → Bool
  | [] => true
  | kv :: rest => !(rest.any (fun kw => kw.1 == kv.1)) && keysNodup rest

/-- All values of an association list are numbers. -/
def numEntries (gs : List (String × Json)) : Bool :=
  gs.all (fun g => match g.2 with | .num _ => true | _ => false)

/-- Well-formedness of one category entry for fiscal-year aggregation: not
null, and its `fiscal_years` field (when present and truthy) is an object
map of numbers without duplicate year keys. -/
def fyWellFormed (entryData : Json) : Bool :=
  match entryData with
  | .null => false
  | _ =>
    match jsIndex entryData "fiscal_years" with
    | some f =>
      if truthy f then
        match f with
        | .obj gs => numEntries gs && keysNodup gs
        | _ => false
      else true
    | none => true

def entriesWellFormed (fs : List (String × Json)) : Bool :=
  fs.all (fun kv => fyWellFormed kv.2)

/-- The year-keyed contributions one entry feeds into the aggregate view. -/
def entryFy (entryData : Json) : List (String × Json) :=
  match jsIndex entryData "fiscal_years" with
  | some f => if truthy f then jsEntriesList f else []
  | none => []

/-- All (year, amount) contributions across the container's entries. -/
def allContribs (fs : List (String × Json)) : List (String × Json) :=
  fs.flatMap (fun kv => entryFy kv.2)

/-- One entry's amount for a year: the value at that year of the entry's
truthy `fiscal_years` mapping, when it has one. -/
def entryContrib (entryData : Json) (year : String) : Option Dec :=
  match jsIndex entryData "fiscal_years" with
  | some f =>
    if truthy f then
      match jsIndex f year with
      | some (.num q) => some q
      | _ => none
    else none
  | none => none

/-- Modelled from the spec's words (claim C7): the amounts contributed to a
given year, one per category entry that has a fiscal_years mapping holding
that year. -/
def specYearContribs (fs : List (String × Json)) (year : String) : List Dec :=
  fs.filterMap (fun kv => entryContrib kv.2 year)

/-- Modelled from the spec's words (claim C7): the aggregate value for a
year is the sum of the contributions to it. -/
def specYearTotal (fs : List (String × Json)) (year : String) : Dec :=
  (specYearContribs fs year).foldl Dec.add 0

/-- Every value stored in the accumulated totals object is a number, and a
zero-valued one is the canonical zero. -/
def storedGood (m : List (String × Json)) : Prop :=
  ∀ kv ∈ m, ∃ v : Dec, kv.2 = Json.num v ∧ (v.isZero = true → v = 0)

/-- The numeric value currently stored for a year (0 when absent). -/
def getOld (m : List (String × Json)) (y : String) : Dec :=
  match fyLookup m y with
  | some (.num v) => v
  | _ => 0

def decOf : Json → Dec
  | .num q => q
  | _ => 0

/-- A row whose cells are all strings or empty (the shape delivered for
text columns); rules out the TypeError `cellValue.trim` would raise on a
numeric cell. -/
def goodRow (rowData : List Cell) : Prop :=
  ∀ c ∈ rowData, (∃ t, c = Cell.str t) ∨ c = Cell.empty

/-- The per-letter status `validateRowJsonColumns` computes, as a total
function on rows whose cells are strings or empty. -/
def rowStatusTotal (p : String → Except String Json) (rowData : List Cell)
    (letter : String) : RowStatus :=
  match COLUMN_INDEX_MAP letter with
  | none => RowStatus.emptyCell
  | some schemaKey =>
    match COLUMN_SCHEMAS schemaKey with
    | none => RowStatus.emptyCell
    | some schema =>
      match rowData.getD schema.columnIndex Cell.empty with
      | Cell.str s =>
        if s == "" then RowStatus.emptyCell
        else if trimStr s == "" then RowStatus.emptyCell
        else
          let pr := parseAndValidateJson p (Cell.str s)
          if pr.isValid == false then RowStatus.parseError pr.error
          else
            let vr := validateJsonStructure (pr.data.getD .null) schemaKey
            RowStatus.validated vr.isValid vr.errors vr.warnings
      | _ => RowStatus.emptyCell

/-! ### Concrete fixtures used by counterexamples and witnesses -/

/-- The specification's Pattern A end-to-end example (column D). -/
def exObligationsD : Json :=
  .obj [("total_obligated", .num 1000),
        ("fiscal_year_obligations", .obj [("2022", .num 400), ("2023", .num 600)])]

/-- The specification's Pattern B end-to-end example (column F). -/
def exSumTier : Json :=
  .obj [("summary", .obj [("total_all_obligations", .num 300)]),
        ("tier_summaries",
          .obj [("A", .obj [("total", .num 200), ("fiscal_years", .obj [("2024", .num 200)])]),
                ("B", .obj [("total", .num 100), ("fiscal_years", .obj [("2024", .num 100)])])])]

/-- A column E value whose object-map container holds a null entry. -/
def exNullEntrySmallBusiness : Json :=
  .obj [("business_size_summaries", .obj [("A", .null)])]

/-- A column L value whose declared-array container is an object map. -/
def exArrayDeclaredMap : Json :=
  .obj [("top_10_piids", .obj [("a", .num 1)])]

/-- A column E value with all required fields and a null container. -/
def c2Data : Json :=
  .obj [("source_file", .str "x"),
        ("summary", .obj [("total_all_obligations", .num 1)]),
        ("business_size_summaries", .null),
        ("processed_date", .str "d")]

/-- A sumTier map entry carrying both a `total_obligations` and a `total`
field. -/
def c5Entry : Json := .obj [("total_obligations", .num 5), ("total", .num 7)]

def c5Data : Json := .obj [("tier_summaries", .obj [("BIC", c5Entry)])]

/-- A column G value whose single entry has only a `total` field. -/
def c5DefaultData : Json :=
  .obj [("sum_type_summaries", .obj [("Open Market", .obj [("total", .num 9)])])]

/-- An obligations cell with no `total_obligated` but a
`summary.total_obligations`. -/
def c4Obligations : Json := .obj [("summary", .obj [("total_obligations", .num 42)])]

/-- A oneGovTier cell whose primary value (`total_obligated`) is 99. -/
def c4Tier : Json := .obj [("total_obligated", .num 99)]

def c4Entity : Entity :=
  { id := "oem_1", name := "X", etype := "oem", rowIndex := 1,
    fields := [("obligations", EntityVal.json c4Obligations),
               ("oneGovTier", EntityVal.json c4Tier)],
    totalObligations := Json.num 0, tier := Json.null, hasAIProducts := false }

/-- An obligations cell with a present-but-zero `total_obligated`. -/
def c4ZeroObligations : Json :=
  .obj [("total_obligated", .num 0), ("summary", .obj [("total_obligations", .num 42)])]

/-- A row whose column-D cell is decodable JSON that is not an object. -/
def c10Row : List Cell := [Cell.empty, Cell.str "x", Cell.empty, Cell.str "[1, 2]"]

/-- A minimal previously cached entity. -/
def oldEntity (nm : String) : Entity :=
  { id := "x", name := nm, etype := "agency", rowIndex := 1, fields := [],
    totalObligations := Json.num 0, tier := Json.null, hasAIProducts := false }

/-- A fully loaded cache from a previous successful load at time 1000. -/
def cOld : Cache :=
  { agencies := some [oldEntity "OldAgency"], oems := some [oldEntity "OldOem"],
    vendors := some [oldEntity "OldVendor"], lastUpdated := some 1000, isLoading := false }

/-- An environment whose Agency sheet reads fine (one data row) but whose
OEM sheet read throws. -/
def envC3 : Env :=
  { openResult := .ok (),
    sheet := fun nm =>
      if nm == "Agency" then .rows [[], [Cell.empty, Cell.str "NewAgency"]]
      else .failure "boom",
    jsonParse := fun _ => .error "no parse" }

/-! ### Helper lemmas -/

theorem exceptMap_ok_of_eq {α β ε : Type} (f : α → Except ε β) (g : α → β) :
    ∀ l : List α, (∀ a ∈ l, f a = .ok (g a)) → exceptMap f l = .ok (l.map g)
  | [], _ => rfl
  | a :: as, h => by
    have ha := h a (List.mem_cons_self a as)
    have hrest := exceptMap_ok_of_eq f g as (fun x hx => h x (List.mem_cons_of_mem a hx))
    simp [exceptMap, ha, hrest]

theorem jsMember_ok (v : Json) (k : String) (h : v ≠ Json.null) :
    jsMember v k = .ok (jsIndex v k) := by
  cases v with
  | null => exact absurd rfl h
  | bool b => rfl
  | num q => rfl
  | str s => rfl
  | arr xs => rfl
  | obj fs => rfl

theorem catFromArrayItem_ok (schema : ColumnSchema) (item : Json) (h : item ≠ Json.null) :
    catFromArrayItem schema item = .ok (catFromArrayItemTotal schema item) := by
  simp [catFromArrayItem, jsMember_ok _ _ h, catFromArrayItemTotal]

theorem catFromMapEntry_ok (nm : String) (entryData : Json) (h : entryData ≠ Json.null) :
    catFromMapEntry nm entryData = .ok (catFromMapEntryTotal nm entryData) := by
  simp only [catFromMapEntry, jsMember_ok _ _ h]
  cases hT : jsIndex entryData "total_obligations" with
  | some w => simp [catFromMapEntryTotal, mapEntryValue, hT]
  | none => simp [catFromMapEntryTotal, mapEntryValue, hT, jsMember_ok _ _ h]

theorem jsOrEmptyObj_default (o : Option Json) :
    jsOrEmptyObj o = Json.obj [] ∨ truthy (jsOrEmptyObj o) = true := by
  cases o with
  | none => exact Or.inl rfl
  | some f =>
    cases hf : truthy f with
    | false => exact Or.inl (by simp [jsOrEmptyObj, hf])
    | true => exact Or.inr (by simp [jsOrEmptyObj, hf])

theorem not_isNull_ne (j : Json) (h : j.isNull = false) : j ≠ Json.null := by
  intro hn
  subst hn
  simp [Json.isNull] at h

/-- The object-map branch of `getCategories` in its realised (non-throwing)
form: with no null entry in the container, every entry maps through
`catFromMapEntryTotal`. -/
theorem getCategories_map_branch (jsonData : Json) (schemaKey : String)
    (schema : ColumnSchema) (cp : String) (cats : Json)
    (hs : COLUMN_SCHEMAS schemaKey = some schema)
    (hno : (schema.categoryValueType == some "array") = false)
    (hcp : schema.categoriesPath = some cp) (hcpe : (cp == "") = false)
    (hcats : getNestedValue jsonData cp = some cats) (ht : truthy cats = true)
    (hwf : (jsEntriesList cats).all (fun kv => !kv.2.isNull) = true) :
    getCategories jsonData schemaKey =
      .ok ((jsEntriesList cats).map (fun kv => catFromMapEntryTotal kv.1 kv.2)) := by
  have hok : ∀ kv ∈ jsEntriesList cats,
      (fun kv : String × Json => catFromMapEntry kv.1 kv.2) kv =
        .ok ((fun kv : String × Json => catFromMapEntryTotal kv.1 kv.2) kv) := by
    intro kv hkv
    have h1 := List.all_eq_true.mp hwf kv hkv
    exact catFromMapEntry_ok kv.1 kv.2 (not_isNull_ne kv.2 (by simpa using h1))
  have hmap := exceptMap_ok_of_eq (fun kv : String × Json => catFromMapEntry kv.1 kv.2)
    (fun kv : String × Json => catFromMapEntryTotal kv.1 kv.2) (jsEntriesList cats) hok
  simp [getCategories, hs, hcp, hcpe, hcats, ht, hno, hmap]

/-- The array branch of `getCategories` in its realised (non-throwing)
form: with no null item in the array, every item maps through
`catFromArrayItemTotal`. -/
theorem getCategories_arr_branch (jsonData : Json) (schemaKey : String)
    (schema : ColumnSchema) (cp : String) (items : List Json)
    (hs : COLUMN_SCHEMAS schemaKey = some schema)
    (hyes : (schema.categoryValueType == some "array") = true)
    (hcp : schema.categoriesPath = some cp) (hcpe : (cp == "") = false)
    (hcats : getNestedValue jsonData cp = some (Json.arr items))
    (hwf : items.all (fun item => !item.isNull) = true) :
    getCategories jsonData schemaKey =
      .ok (items.map (catFromArrayItemTotal schema)) := by
  have hok : ∀ item ∈ items, catFromArrayItem schema item =
      .ok (catFromArrayItemTotal schema item) := by
    intro item hitem
    have h1 := List.all_eq_true.mp hwf item hitem
    exact catFromArrayItem_ok schema item (not_isNull_ne item (by simpa using h1))
  have hmap := exceptMap_ok_of_eq (catFromArrayItem schema) (catFromArrayItemTotal schema)
    items hok
  simp [getCategories, hs, hcp, hcpe, hcats, hyes, truthy, hmap]

theorem foldl_resolveStep_none : ∀ ks : List String, ks.foldl resolveStep none = none
  | [] => rfl
  | _ :: ks => foldl_resolveStep_none ks

theorem foldl_resolveStep_eq : ∀ (ks : List String) (v : Json),
    List.foldl resolveStep (some v) ks = resolveKeys v ks
  | [], v => rfl
  | k :: ks, v => by
    cases h : truthy v with
    | false => simp [List.foldl, resolveStep, resolveKeys, h, foldl_resolveStep_none ks]
    | true =>
      cases hj : jsIndex v k with
      | none => simp [List.foldl, resolveStep, resolveKeys, h, hj, foldl_resolveStep_none ks]
      | some w => simp [List.foldl, resolveStep, resolveKeys, h, hj, foldl_resolveStep_eq ks w]

theorem dec_canon_zero : ∀ (e : Nat) (m : Int), (Dec.canon m e).m = 0 → Dec.canon m e = 0
  | 0, m, h => by
    have hm : m = 0 := h
    subst hm; rfl
  | e + 1, m, h => by
    cases hd : (m % 10 == 0) with
    | true =>
      have h2 : (Dec.canon (m / 10) e).m = 0 := by
        simpa [Dec.canon, hd] using h
      have := dec_canon_zero e (m / 10) h2
      simpa [Dec.canon, hd] using this
    | false =>
      exfalso
      have hm : m = 0 := by simpa [Dec.canon, hd] using h
      subst hm; simp at hd

/-- Sums produced by `Dec.add` are canonical at zero: a zero-valued sum is
the canonical zero, so the `|| 0` refresh in the accumulator is the
identity on accumulated values. -/
theorem dec_add_zero_canon (a b : Dec) (h : (Dec.add a b).isZero = true) : Dec.add a b = 0 := by
  have hdef : Dec.add a b =
      Dec.canon (a.m * pow10 (max a.e b.e - a.e) + b.m * pow10 (max a.e b.e - b.e))
        (max a.e b.e) := rfl
  have hm : (Dec.add a b).m = 0 := by
    have h2 := h
    simp [Dec.isZero] at h2
    exact h2
  rw [hdef] at hm ⊢
  exact dec_canon_zero _ _ hm

theorem jsAdd_num (a b : Dec) : jsAdd (Json.num a) (Json.num b) = Json.num (Dec.add a b) := rfl

theorem fyLookup_upsert_same (y : String) (q : Dec) :
    ∀ m, storedGood m →
      fyLookup (fyUpsert m y (Json.num q)) y = some (Json.num (Dec.add (getOld m y) q))
  | [], _ => by simp [fyUpsert, fyLookup, getOld, jsAdd_num]
  | kv :: rest, h => by
    cases hk : (kv.1 == y) with
    | true =>
      obtain ⟨v, hv, hz⟩ := h kv (List.mem_cons_self _ _)
      have hold : getOld (kv :: rest) y = v := by simp [getOld, fyLookup, hk, hv]
      cases ht : truthy kv.2 with
      | true =>
        have ht2 : truthy (Json.num v) = true := hv ▸ ht
        simp [fyUpsert, hk, fyLookup, hold, ht2, hv, jsAdd_num]
      | false =>
        have ht2 : truthy (Json.num v) = false := hv ▸ ht
        have hvz : v = 0 := by
          apply hz
          simpa [truthy] using ht2
        simp [fyUpsert, hk, fyLookup, hold, ht2, hv, hvz, jsAdd_num]
    | false =>
      have hrest := fyLookup_upsert_same y q rest (fun x hx => h x (List.mem_cons_of_mem kv hx))
      have hold : getOld (kv :: rest) y = getOld rest y := by simp [getOld, fyLookup, hk]
      simp [fyUpsert, hk, fyLookup, hrest, hold]

theorem fyLookup_upsert_ne (y y2 : String) (v : Json) (hne : (y2 == y) = false) :
    ∀ m, fyLookup (fyUpsert m y v) y2 = fyLookup m y2
  | [] => by
    have hne2 : (y == y2) = false := by
      cases hyy : (y == y2) with
      | false => rfl
      | true =>
        have h1 : y = y2 := by simpa using hyy
        subst h1
        simp at hne
    simp [fyUpsert, fyLookup, hne2]
  | kv :: rest => by
    cases hk : (kv.1 == y) with
    | true =>
      have hk2 : (kv.1 == y2) = false := by
        have h1 : kv.1 = y := by simpa using hk
        subst h1
        cases hkk : (kv.1 == y2) with
        | false => rfl
        | true =>
          have : kv.1 = y2 := by simpa using hkk
          subst this
          simp at hne
      simp [fyUpsert, hk, fyLookup, hk2]
    | false => simp [fyUpsert, hk, fyLookup, fyLookup_upsert_ne y y2 v hne rest]

theorem storedGood_upsert (y : String) (q : Dec) :
    ∀ m, storedGood m → storedGood (fyUpsert m y (Json.num q))
  | [], _ => by
    intro kv hkv
    simp [fyUpsert] at hkv
    refine ⟨Dec.add 0 q, by simp [hkv, jsAdd_num], ?_⟩
    intro hz
    exact dec_add_zero_canon _ _ hz
  | kv0 :: rest, h => by
    intro kv hkv
    cases hk : (kv0.1 == y) with
    | true =>
      simp [fyUpsert, hk] at hkv
      cases hkv with
      | inl heq =>
        obtain ⟨v, hv, _⟩ := h kv0 (List.mem_cons_self _ _)
        cases ht : truthy kv0.2 with
        | true =>
          have ht2 : truthy (Json.num v) = true := hv ▸ ht
          refine ⟨Dec.add v q, ?_, fun hz => dec_add_zero_canon _ _ hz⟩
          rw [heq]
          simp [ht2, hv, jsAdd_num]
        | false =>
          refine ⟨Dec.add 0 q, ?_, fun hz => dec_add_zero_canon _ _ hz⟩
          rw [heq]
          simp [ht, jsAdd_num]
      | inr hmem => exact h kv (List.mem_cons_of_mem kv0 hmem)
    | false =>
      simp [fyUpsert, hk] at hkv
      cases hkv with
      | inl heq =>
        refine h kv ?_
        rw [heq]
        exact List.mem_cons_self _ _
      | inr hmem =>
        exact storedGood_upsert y q rest (fun x hx => h x (List.mem_cons_of_mem kv0 hx)) kv hmem

theorem fyUpsert_ne_nil (y : String) (v : Json) : ∀ m, fyUpsert m y v ≠ []
  | [] => by simp [fyUpsert]
  | kv :: rest => by
    cases hk : (kv.1 == y) with
    | true => simp [fyUpsert, hk]
    | false => simp [fyUpsert, hk]

theorem applyFy_ne_nil : ∀ (L m : List (String × Json)), m ≠ [] → applyFy m L ≠ []
  | [], _, h => h
  | kv :: L2, m, _ => applyFy_ne_nil L2 _ (fyUpsert_ne_nil kv.1 kv.2 m)

theorem applyFy_nil_iff : ∀ L : List (String × Json), applyFy [] L = [] ↔ L = []
  | [] => by simp [applyFy]
  | kv :: L2 => by
    constructor
    · intro h
      exact absurd h (applyFy_ne_nil L2 _ (fyUpsert_ne_nil _ _ []))
    · intro h
      simp at h

theorem fyLookup_applyFy (y : String) :
    ∀ (L m : List (String × Json)), storedGood m →
      (∀ kv ∈ L, ∃ q : Dec, kv.2 = Json.num q) →
      fyLookup (applyFy m L) y =
        if (L.filter (fun kv => kv.1 == y)).isEmpty then fyLookup m y
        else
          some (Json.num
            (((L.filter (fun kv => kv.1 == y)).map (fun kv => decOf kv.2)).foldl
              Dec.add (getOld m y)))
  | [], m, _, _ => by simp [applyFy]
  | (y0, v0) :: L2, m, hm, hL => by
    obtain ⟨q, hq⟩ := hL (y0, v0) (List.mem_cons_self _ _)
    simp only at hq
    subst hq
    have hm2 : storedGood (fyUpsert m y0 (Json.num q)) := storedGood_upsert y0 q m hm
    have hL2 : ∀ kv ∈ L2, ∃ p : Dec, kv.2 = Json.num p :=
      fun kv hkv => hL kv (List.mem_cons_of_mem _ hkv)
    have IH := fyLookup_applyFy y L2 (fyUpsert m y0 (Json.num q)) hm2 hL2
    have hstep : applyFy m ((y0, Json.num q) :: L2) = applyFy (fyUpsert m y0 (Json.num q)) L2 := rfl
    rw [hstep, IH]
    cases hk : (y0 == y) with
    | true =>
      have hy : y0 = y := by simpa using hk
      subst hy
      have hsame := fyLookup_upsert_same y0 q m hm
      have hold2 : getOld (fyUpsert m y0 (Json.num q)) y0 = Dec.add (getOld m y0) q := by
        simp [getOld, hsame]
      rw [hold2, hsame]
      have hfeq : List.filter (fun kv => kv.1 == y0) ((y0, Json.num q) :: L2) =
          (y0, Json.num q) :: List.filter (fun kv => kv.1 == y0) L2 := by
        simp [List.filter_cons]
      rw [hfeq]
      cases hF : List.filter (fun kv => kv.1 == y0) L2 with
      | nil => simp [decOf]
      | cons a as => simp [decOf]
    | false =>
      have hne : (y == y0) = false := by
        cases hyy : (y == y0) with
        | false => rfl
        | true =>
          have h1 : y = y0 := by simpa using hyy
          subst h1
          simp at hk
      have hlk : fyLookup (fyUpsert m y0 (Json.num q)) y = fyLookup m y :=
        fyLookup_upsert_ne y0 y (Json.num q) hne m
      have hold2 : getOld (fyUpsert m y0 (Json.num q)) y = getOld m y := by
        simp [getOld, hlk]
      rw [hlk, hold2]
      have hfeq : List.filter (fun kv => kv.1 == y) ((y0, Json.num q) :: L2) =
          List.filter (fun kv => kv.1 == y) L2 := by
        simp [List.filter_cons, hk]
      rw [hfeq]

theorem entriesWellFormed_parts (kv : String × Json) (fs2 : List (String × Json))
    (h : entriesWellFormed (kv :: fs2) = true) :
    fyWellFormed kv.2 = true ∧ entriesWellFormed fs2 = true := by
  simpa [entriesWellFormed] using h

theorem fyWellFormed_not_null (e : Json) (h : fyWellFormed e = true) : e ≠ Json.null := by
  intro hn
  subst hn
  simp [fyWellFormed] at h

theorem filter_find_nodup (y : String) :
    ∀ gs : List (String × Json), keysNodup gs = true →
      gs.filter (fun kv => kv.1 == y) =
        (match gs.find? (fun kv => kv.1 == y) with
         | some kv => [kv]
         | none => [])
  | [], _ => rfl
  | kv :: rest, h => by
    have h1 : (rest.any (fun kw => kw.1 == kv.1)) = false ∧ keysNodup rest = true := by
      simpa [keysNodup] using h
    cases hk : (kv.1 == y) with
    | true =>
      have hy : kv.1 = y := by simpa using hk
      have hrest : rest.filter (fun kw => kw.1 == y) = [] := by
        rw [List.filter_eq_nil_iff]
        intro a ha
        have hnone := List.any_eq_false.mp h1.1 a ha
        rw [← hy]
        simpa using hnone
      simp [List.filter_cons, hk, List.find?, hrest]
    | false =>
      simp [List.filter_cons, hk, List.find?, filter_find_nodup y rest h1.2]

theorem numEntries_mem (gs : List (String × Json)) (h : numEntries gs = true)
    (kv : String × Json) (hmem : kv ∈ gs) : ∃ p : Dec, kv.2 = Json.num p := by
  have hall := List.all_eq_true.mp h kv hmem
  cases hv : kv.2 with
  | num p => exact ⟨p, rfl⟩
  | null => rw [hv] at hall; simp at hall
  | bool b3 => rw [hv] at hall; simp at hall
  | str s3 => rw [hv] at hall; simp at hall
  | arr a3 => rw [hv] at hall; simp at hall
  | obj o3 => rw [hv] at hall; simp at hall

theorem fyWellFormed_shape (e f : Json) (hwf : fyWellFormed e = true)
    (hf : jsIndex e "fiscal_years" = some f) (ht : truthy f = true) :
    ∃ gs, f = Json.obj gs ∧ numEntries gs = true ∧ keysNodup gs = true := by
  cases e with
  | null => simp [fyWellFormed] at hwf
  | bool b => exact Option.noConfusion (show (none : Option Json) = some f from hf)
  | num q => exact Option.noConfusion (show (none : Option Json) = some f from hf)
  | str s => exact Option.noConfusion (show (none : Option Json) = some f from hf)
  | arr xs =>
    have h2 : (match jsIndex (Json.arr xs) "fiscal_years" with
        | some f2 =>
          if truthy f2 then
            match f2 with
            | Json.obj gs => numEntries gs && keysNodup gs
            | _ => false
          else true
        | none => true) = true := hwf
    rw [hf] at h2
    simp only [ht, if_true] at h2
    cases f with
    | obj gs =>
      refine ⟨gs, rfl, ?_⟩
      simpa using h2
    | null => simp [truthy] at ht
    | bool b2 => simp at h2
    | num q2 => simp at h2
    | str s2 => simp at h2
    | arr ys => simp at h2
  | obj fs0 =>
    have h2 : (match jsIndex (Json.obj fs0) "fiscal_years" with
        | some f2 =>
          if truthy f2 then
            match f2 with
            | Json.obj gs => numEntries gs && keysNodup gs
            | _ => false
          else true
        | none => true) = true := hwf
    rw [hf] at h2
    simp only [ht, if_true] at h2
    cases f with
    | obj gs =>
      refine ⟨gs, rfl, ?_⟩
      simpa using h2
    | null => simp [truthy] at ht
    | bool b2 => simp at h2
    | num q2 => simp at h2
    | str s2 => simp at h2
    | arr ys => simp at h2

theorem filter_entryFy (y : String) (e : Json) (hwf : fyWellFormed e = true) :
    ((entryFy e).filter (fun kv => kv.1 == y)).map (fun kv => decOf kv.2) =
      (entryContrib e y).toList := by
  cases hf : jsIndex e "fiscal_years" with
  | none => simp [entryFy, entryContrib, hf]
  | some f =>
    cases ht : truthy f with
    | false => simp [entryFy, entryContrib, hf, ht]
    | true =>
      obtain ⟨gs, hgs, hnum, hnd⟩ := fyWellFormed_shape e f hwf hf ht
      subst hgs
      have hfilter := filter_find_nodup y gs hnd
      simp only [entryFy, entryContrib, hf, ht, if_true, jsEntriesList]
      rw [hfilter]
      cases hfind : gs.find? (fun kv => kv.1 == y) with
      | none => simp [jsIndex, hfind]
      | some kvf =>
        have hmem := List.mem_of_find?_eq_some hfind
        obtain ⟨p, hp⟩ := numEntries_mem gs hnum kvf hmem
        simp [jsIndex, hfind, hp, decOf]

theorem entryFy_num (e : Json) (hwf : fyWellFormed e = true) :
    ∀ kv ∈ entryFy e, ∃ q : Dec, kv.2 = Json.num q := by
  intro kv hkv
  cases hf : jsIndex e "fiscal_years" with
  | none => simp [entryFy, hf] at hkv
  | some f =>
    cases ht : truthy f with
    | false => simp [entryFy, hf, ht] at hkv
    | true =>
      obtain ⟨gs, hgs, hnum, _⟩ := fyWellFormed_shape e f hwf hf ht
      subst hgs
      simp only [entryFy, hf, ht, if_true, jsEntriesList] at hkv
      exact numEntries_mem gs hnum kv hkv

theorem contribs_decomp (y : String) :
    ∀ fs, entriesWellFormed fs = true →
      ((allContribs fs).filter (fun kv => kv.1 == y)).map (fun kv => decOf kv.2) =
        specYearContribs fs y
  | [], _ => rfl
  | kv :: fs2, h => by
    obtain ⟨h1, h2⟩ := entriesWellFormed_parts kv fs2 h
    have hrec := contribs_decomp y fs2 h2
    have hone := filter_entryFy y kv.2 h1
    have hsplit : allContribs (kv :: fs2) = entryFy kv.2 ++ allContribs fs2 := by
      simp [allContribs]
    rw [hsplit, List.filter_append, List.map_append, hone, hrec]
    cases hc : entryContrib kv.2 y with
    | none => simp [specYearContribs, List.filterMap_cons, hc]
    | some q => simp [specYearContribs, List.filterMap_cons, hc]

theorem allContribs_num (fs : List (String × Json)) (h : entriesWellFormed fs = true) :
    ∀ kv ∈ allContribs fs, ∃ q : Dec, kv.2 = Json.num q := by
  intro kv hkv
  simp only [allContribs, List.mem_flatMap] at hkv
  obtain ⟨e, he, hkv2⟩ := hkv
  have h1 := List.all_eq_true.mp h e he
  exact entryFy_num e.2 (by simpa using h1) kv hkv2

theorem fyFromMapEntry_ok (m : List (String × Json)) (e : Json) (h : e ≠ Json.null) :
    fyFromMapEntry m e = .ok (applyFy m (entryFy e)) := by
  simp only [fyFromMapEntry, jsMember_ok _ _ h]
  cases hf : jsIndex e "fiscal_years" with
  | none => simp [entryFy, hf, applyFy]
  | some f =>
    cases ht : truthy f with
    | true => simp [entryFy, hf, ht]
    | false => simp [entryFy, hf, ht, applyFy]

theorem exceptFold_fyMap :
    ∀ (fs m : List (String × Json)),
      (∀ kv ∈ fs, kv.2 ≠ Json.null) →
      exceptFold (fun m2 (kv : String × Json) => fyFromMapEntry m2 kv.2) m fs =
        .ok (applyFy m (allContribs fs))
  | [], m, _ => by simp [exceptFold, allContribs, applyFy]
  | kv :: fs2, m, h => by
    have h1 := h kv (List.mem_cons_self _ _)
    have hrec := exceptFold_fyMap fs2 (applyFy m (entryFy kv.2))
      (fun x hx => h x (List.mem_cons_of_mem _ hx))
    have hok := fyFromMapEntry_ok m kv.2 h1
    have happ : applyFy m (allContribs (kv :: fs2)) =
        applyFy (applyFy m (entryFy kv.2)) (allContribs fs2) := by
      simp [allContribs, applyFy, List.foldl_append]
    simp [exceptFold, hok, hrec, happ]

theorem entriesWellFormed_not_null (fs : List (String × Json))
    (h : entriesWellFormed fs = true) : ∀ kv ∈ fs, kv.2 ≠ Json.null := by
  intro kv hkv
  have h1 := List.all_eq_true.mp h kv hkv
  exact fyWellFormed_not_null kv.2 (by simpa using h1)

theorem resolveKeys_append_none :
    ∀ (ks1 ks2 : List String) (v : Json), resolveKeys v ks1 = none →
      resolveKeys v (ks1 ++ ks2) = none
  | [], _, v, h => by simp [resolveKeys] at h
  | k :: ks1, ks2, v, h => by
    cases ht : truthy v with
    | false => simp [resolveKeys, ht]
    | true =>
      cases hj : jsIndex v k with
      | none => simp [resolveKeys, ht, hj]
      | some w =>
        have h2 : resolveKeys w ks1 = none := by
          simpa [resolveKeys, ht, hj] using h
        simp [resolveKeys, ht, hj, resolveKeys_append_none ks1 ks2 w h2]

theorem getD_mem_or_default {α : Type} :
    ∀ (l : List α) (i : Nat) (d : α), l.getD i d ∈ l ∨ l.getD i d = d
  | [], _, _ => Or.inr rfl
  | a :: _, 0, _ => Or.inl (List.mem_cons_self _ _)
  | _ :: l2, i + 1, d => by
    cases getD_mem_or_default l2 i d with
    | inl h => exact Or.inl (List.mem_cons_of_mem _ h)
    | inr h => exact Or.inr h

theorem lookup_map_self {β : Type} (g : String → β) :
    ∀ (L : List String) (a : String), a ∈ L →
      List.lookup a (L.map (fun l => (l, g l))) = some (g a)
  | [], a, h => by simp at h
  | l :: L2, a, h => by
    cases hl : (a == l) with
    | true =>
      have h2 : a = l := by simpa using hl
      subst h2
      simp [List.lookup]
    | false =>
      have hne : a ≠ l := by simpa using hl
      have hmem : a ∈ L2 := by
        cases List.mem_cons.mp h with
        | inl he => exact absurd he hne
        | inr hm => exact hm
      simp [List.lookup, hl, lookup_map_self g L2 a hmem]

theorem rowStatusFor_eq (p : String → Except String Json) (rowData : List Cell)
    (letter sk : String) (sc : ColumnSchema)
    (h1 : COLUMN_INDEX_MAP letter = some sk)
    (h2 : COLUMN_SCHEMAS sk = some sc)
    (hrow : goodRow rowData) :
    rowStatusFor p rowData letter = .ok (letter, rowStatusTotal p rowData letter) := by
  have hcell : (∃ t, rowData.getD sc.columnIndex Cell.empty = Cell.str t) ∨
      rowData.getD sc.columnIndex Cell.empty = Cell.empty := by
    cases getD_mem_or_default rowData sc.columnIndex Cell.empty with
    | inl hmem => exact hrow _ hmem
    | inr hd => exact Or.inr hd
  simp only [rowStatusFor, rowStatusTotal, h1, h2]
  cases hcell with
  | inr he =>
    rw [List.getD_eq_getElem?_getD] at he
    simp [he, cellTruthy]
  | inl hex =>
    obtain ⟨t, ht⟩ := hex
    rw [List.getD_eq_getElem?_getD] at ht
    cases hts : (t == "") with
    | true =>
      have hteq : t = "" := by simpa using hts
      subst hteq
      simp [ht, cellTruthy]
    | false =>
      have htne : ¬(t = "") := by simpa using hts
      cases htr : (trimStr t == "") with
      | true => simp [ht, cellTruthy, cellTrim, htne, htr]
      | false =>
        have htrne : ¬(trimStr t = "") := by simpa using htr
        cases hpv : ((parseAndValidateJson p (Cell.str t)).isValid == false) with
        | true =>
          have hpv2 : (parseAndValidateJson p (Cell.str t)).isValid = false := by simpa using hpv
          simp [ht, cellTruthy, cellTrim, htne, htrne, hpv2]
        | false =>
          have hpv2 : ¬((parseAndValidateJson p (Cell.str t)).isValid = false) := by
            simpa using hpv
          simp [ht, cellTruthy, cellTrim, htne, htrne, hpv2]

theorem validateRow_good (p : String → Except String Json) (rowData : List Cell)
    (hrow : goodRow rowData) :
    validateRowJsonColumns p rowData =
      .ok (COLUMN_INDEX_LETTERS.map (fun l => (l, rowStatusTotal p rowData l))) := by
  apply exceptMap_ok_of_eq
  intro letter hl
  fin_cases hl <;> exact rowStatusFor_eq p rowData _ _ _ rfl rfl hrow

theorem requiredErrors_isEmpty (d : Json) :
    ∀ flds : List String,
      (flds.filterMap (fun field =>
        if (getNestedValue d field).isNone then
          some ("Missing required field: " ++ field)
        else none)).isEmpty =
        !(flds.any (fun f => (getNestedValue d f).isNone))
  | [] => rfl
  | f :: fs => by
    cases hf : (getNestedValue d f).isNone with
    | true => simp [List.filterMap_cons, hf]
    | false => simp [List.filterMap_cons, hf, requiredErrors_isEmpty d fs]

/-- `Array.isArray(cats) || typeof cats !== 'object'` is exactly "neither an
object map nor null". -/
theorem jsShapeCond (cats : Json) :
    (cats.isArr || jsTypeof cats != "object") = !(cats.isObjMap || cats.isNull) := by
  cases cats <;> rfl

theorem validate_isValid_eq (d : Json) (k : String) (schema : ColumnSchema)
    (hs : COLUMN_SCHEMAS k = some schema) (h1 : truthy d = true)
    (h2 : jsTypeof d = "object") :
    (validateJsonStructure d k).isValid = !specAmendedInvalid d schema := by
  have hcond : (truthy d == false || jsTypeof d != "object") = false := by
    simp [h1, h2]
  simp only [validateJsonStructure, specAmendedInvalid, hs, hcond, Bool.false_eq_true,
    if_false]
  rw [requiredErrors_isEmpty]
  cases hany : schema.requiredFields.any (fun f => (getNestedValue d f).isNone) with
  | true => simp
  | false =>
    simp only [Bool.not_false, Bool.true_and, Bool.false_or]
    cases hcp : schema.categoriesPath with
    | none => simp
    | some cp =>
      cases hemp : (cp == "") with
      | true => simp [hemp]
      | false =>
        simp only [hemp, Bool.false_eq_true, if_false]
        cases hcat : getNestedValue d cp with
        | none => simp
        | some cats =>
          cases hc1 : (schema.categoryValueType == some "array" && !cats.isArr) with
          | true => simp [hc1]
          | false =>
            cases hc2 : (schema.categoryValueType == some "object_map" &&
                (cats.isArr || jsTypeof cats != "object")) with
            | true =>
              have hc2b : (schema.categoryValueType == some "object_map" &&
                  !(cats.isObjMap || cats.isNull)) = true := by
                rw [← jsShapeCond]; exact hc2
              simp [hc1, hc2]
              simpa using hc2b
            | false =>
              have hc2b : (schema.categoryValueType == some "object_map" &&
                  !(cats.isObjMap || cats.isNull)) = false := by
                rw [← jsShapeCond]; exact hc2
              have himp : schema.categoryValueType = some "object_map" →
                  cats.isObjMap = false → cats.isNull = true := by simpa using hc2b
              simp [hc1, hc2]
              by_cases hx : schema.categoryValueType = some "object_map"
              · cases hom : cats.isObjMap with
                | true => exact Or.inr (Or.inl rfl)
                | false => exact Or.inr (Or.inr (himp hx hom))
              · exact Or.inl hx

/-! ### Claims -/

/-- Claim C6, counterexample.  The claim says the resolver "returns absent
whenever any intermediate step is absent or not a mapping".  With an array
(not a mapping) at the intermediate step `a`, the resolver does not return
absent: JavaScript indexes into the array and returns the element. -/
theorem getNestedValue_array_counterexample :
    getNestedValue (Json.obj [("a", Json.arr [Json.num 10, Json.num 20])]) "a.1" =
        some (Json.num 20) ∧
      getNestedValue (Json.obj [("a", Json.arr [Json.num 10, Json.num 20])]) "a" =
        some (Json.arr [Json.num 10, Json.num 20]) ∧
      Json.isObjMap (Json.arr [Json.num 10, Json.num 20]) = false ∧
      getNestedValue (Json.obj [("a", Json.arr [Json.num 10, Json.num 20])]) "a.length" =
        some (Json.num 2) :=
  ⟨rfl, rfl, rfl, rfl⟩

/-- Claim C6 (amended): `getNestedValue` splits the path on `.` and walks
the keys one step at a time, never raising and never modifying its
arguments; an absent intermediate result stays absent through any further
keys; each step yields absent when the current value is falsy or lacks the
key, but arrays and strings are traversed by index (and `length`) like any
JavaScript property access — a non-mapping intermediate is not itself
absent.  The exact stored value is returned when every step exists. -/
theorem getNestedValue_spec (obj : Json) (path : String)
    (hobj : truthy obj = true) (hpath : path ≠ "") :
    getNestedValue obj path = resolveKeys obj (splitDots path) ∧
      (∀ (ks1 ks2 : List String) (v : Json), resolveKeys v ks1 = none →
        resolveKeys v (ks1 ++ ks2) = none) ∧
      (∀ (v : Json) (k : String) (ks : List String),
        resolveKeys v (k :: ks) =
          (if truthy v then
            match jsIndex v k with
            | some w => resolveKeys w ks
            | none => none
          else none)) ∧
      (∀ v : Json, resolveKeys v [] = some v) := by
  refine ⟨?_, resolveKeys_append_none, fun v k ks => rfl, fun v => rfl⟩
  have hp : (path == "") = false := by
    cases hpp : (path == "") with
    | false => rfl
    | true => exact absurd (by simpa using hpp) hpath
  simp only [getNestedValue, hp, hobj]
  simpa using foldl_resolveStep_eq (splitDots path) obj

/-- Claim C6 witness: the amended resolver contract applied at a concrete
object and path. -/
theorem getNestedValue_spec_witness :
    getNestedValue (Json.obj [("a", Json.obj [("b", Json.num 3)])]) "a.b" =
        resolveKeys (Json.obj [("a", Json.obj [("b", Json.num 3)])]) (splitDots "a.b") ∧
      getNestedValue (Json.obj [("a", Json.obj [("b", Json.num 3)])]) "a.b" =
        some (Json.num 3) :=
  ⟨(getNestedValue_spec (Json.obj [("a", Json.obj [("b", Json.num 3)])]) "a.b" rfl
      (by decide)).1,
    rfl⟩

/-- Claim C8: the cell-parsing step never raises.  Any error thrown inside
`parseJSON`'s try block is caught and yields a null parsed value; empty
content, `"{}"` and `"[]"` parse to null before `JSON.parse` is even
consulted; any string whose trimmed form fails `JSON.parse` yields null;
extraction over a null cell gives the empty result (`totalObligations` 0),
so the row/column loops continue; and `parseAndValidateJson` likewise
converts a parse failure into an invalid result with null data instead of
raising. -/
theorem parseJSON_never_raises (p : String → Except String Json) :
    (∀ (v : Cell) (e : String), parseJSONAttempt p v = .error e → parseJSON p v = none) ∧
      parseJSON p Cell.empty = none ∧
      parseJSON p (Cell.str "") = none ∧
      parseJSON p (Cell.str "\x7b\x7d") = none ∧
      parseJSON p (Cell.str "[]") = none ∧
      (∀ (s e : String), p (trimStr s) = .error e → parseJSON p (Cell.str s) = none) ∧
      extractTotalObligations Json.null = Json.num 0 ∧
      (∀ (s e : String), p (trimStr s) = .error e →
        (parseAndValidateJson p (Cell.str s)).isValid = false ∧
          (parseAndValidateJson p (Cell.str s)).data = none) := by
  refine ⟨?_, rfl, rfl, rfl, rfl, ?_, rfl, ?_⟩
  · intro v e h
    simp [parseJSON, h]
  · intro s e h
    cases hs : (s == "") with
    | true =>
      have h1 : s = "" := by simpa using hs
      subst h1
      rfl
    | false =>
      have hsne : ¬(s = "") := by simpa using hs
      simp only [parseJSON, parseJSONAttempt, cellTruthy, cellToString, hs]
      cases hedge : (trimStr s == "" || trimStr s == "\x7b\x7d" || trimStr s == "[]") with
      | true => simp [hedge, hsne]
      | false => simp [hedge, h, hsne]
  · intro s e h
    cases hs : (s == "") with
    | true => simp [parseAndValidateJson, hs]
    | false =>
      cases hb : headCharIs (trimStr s) 123 with
      | false => simp [parseAndValidateJson, hs, hb]
      | true => simp [parseAndValidateJson, hs, hb, h]

/-- Claim C8 witness: the malformed cell from the specification's example,
with a `JSON.parse` oracle that always throws. -/
theorem parseJSON_never_raises_witness :
    parseJSON (fun _ => Except.error "Unexpected token") (Cell.str "\x7bnot json") = none ∧
      (parseAndValidateJson (fun _ => Except.error "Unexpected token")
          (Cell.str "\x7bnot json")).isValid = false ∧
      (parseAndValidateJson (fun _ => Except.error "Unexpected token")
          (Cell.str "\x7bnot json")).data = none :=
  ⟨(parseJSON_never_raises (fun _ => Except.error "Unexpected token")).2.2.2.2.2.1
      "\x7bnot json" "Unexpected token" rfl,
    ((parseJSON_never_raises (fun _ => Except.error "Unexpected token")).2.2.2.2.2.2.2
        "\x7bnot json" "Unexpected token" rfl).1,
    ((parseJSON_never_raises (fun _ => Except.error "Unexpected token")).2.2.2.2.2.2.2
        "\x7bnot json" "Unexpected token" rfl).2⟩

/-- Claim C10: any string input whose trimmed content does not begin with
`{` — including decodable JSON such as a top-level array — makes
`parseAndValidateJson` return isValid=false with null data; every
non-string input likewise returns isValid=false with null data; and
`validateRowJsonColumns` consequently classifies such a non-empty cell as
a parse error. -/
theorem parseAndValidateJson_rejects_non_object (p : String → Except String Json) :
    (∀ s : String, headCharIs (trimStr s) 123 = false →
      (parseAndValidateJson p (Cell.str s)).isValid = false ∧
        (parseAndValidateJson p (Cell.str s)).data = none) ∧
      (∀ c : Cell, (∀ t, c ≠ Cell.str t) →
        (parseAndValidateJson p c).isValid = false ∧
          (parseAndValidateJson p c).data = none) ∧
      (∀ (rowData : List Cell) (letter schemaKey : String) (schema : ColumnSchema) (s : String),
        letter ∈ COLUMN_INDEX_LETTERS →
        COLUMN_INDEX_MAP letter = some schemaKey →
        COLUMN_SCHEMAS schemaKey = some schema →
        goodRow rowData →
        rowData.getD schema.columnIndex Cell.empty = Cell.str s →
        (s == "") = false →
        (trimStr s == "") = false →
        headCharIs (trimStr s) 123 = false →
        ∃ results err,
          validateRowJsonColumns p rowData = .ok results ∧
            List.lookup letter results = some (RowStatus.parseError (some err))) := by
  refine ⟨?_, ?_, ?_⟩
  · intro s hb
    cases hs : (s == "") with
    | true => simp [parseAndValidateJson, hs]
    | false => simp [parseAndValidateJson, hs, hb]
  · intro c hc
    cases c with
    | str t => exact absurd rfl (hc t)
    | empty => exact ⟨rfl, rfl⟩
    | num q => exact ⟨rfl, rfl⟩
    | objv j => exact ⟨rfl, rfl⟩
  · intro rowData letter schemaKey schema s hmem h1 h2 hrow hcell hs htr hb
    refine ⟨_, "String does not start with \x7b", validateRow_good p rowData hrow, ?_⟩
    rw [lookup_map_self (fun l => rowStatusTotal p rowData l) COLUMN_INDEX_LETTERS letter hmem]
    simp only [rowStatusTotal, h1, h2, hcell, hs, htr]
    simp [parseAndValidateJson, hs, hb]

/-- Claim C2, counterexample.  A smallBusiness value with every required
field present and a null categories container: null is not an object map,
so the claim's shape-disagreement condition demands valid=false, but the
validator accepts it (`typeof null === 'object'`) with no error and no
warning.  `specClaimValid` is the claim's own validity condition. -/
theorem validateJsonStructure_null_container_counterexample :
    (validateJsonStructure c2Data "smallBusiness").isValid = true ∧
      (validateJsonStructure c2Data "smallBusiness").errors = [] ∧
      (validateJsonStructure c2Data "smallBusiness").warnings = [] ∧
      (COLUMN_SCHEMAS "smallBusiness").map (fun schema => specClaimValid c2Data schema) =
        some false :=
  ⟨rfl, rfl, rfl, rfl⟩

/-- Claim C2 (amended): for a known schema and an object-like value,
valid=false exactly when a required field is missing or the categories
container is present with a runtime shape disagreeing with the declared
kind — except that a null container at an object-map path is accepted
(`typeof null === 'object'`), producing neither error nor warning.  An
absent primary value, a non-numeric primary value, and an absent categories
path produce warnings only. -/
theorem validateJsonStructure_spec (d : Json) (schemaKey : String) (schema : ColumnSchema)
    (hs : COLUMN_SCHEMAS schemaKey = some schema) (h1 : truthy d = true)
    (h2 : jsTypeof d = "object") :
    ((validateJsonStructure d schemaKey).isValid = !specAmendedInvalid d schema) ∧
      (∀ pv, schema.primaryValuePath = some pv → (pv == "") = false →
        getNestedValue d pv = none →
        ("Primary value path " ++ pv ++ " not found") ∈
          (validateJsonStructure d schemaKey).warnings) ∧
      (∀ pv v, schema.primaryValuePath = some pv → (pv == "") = false →
        getNestedValue d pv = some v → (jsTypeof v != "number") = true →
        ("Primary value is not a number: " ++ jsTypeof v) ∈
          (validateJsonStructure d schemaKey).warnings) ∧
      (∀ cp, schema.categoriesPath = some cp → (cp == "") = false →
        getNestedValue d cp = none →
        ("Categories path " ++ cp ++ " not found") ∈
          (validateJsonStructure d schemaKey).warnings) := by
  have hcond : (truthy d == false || jsTypeof d != "object") = false := by simp [h1, h2]
  refine ⟨validate_isValid_eq d schemaKey schema hs h1 h2, ?_, ?_, ?_⟩
  · intro pv hpv hpve hnone
    simp [validateJsonStructure, hs, hcond, h1, h2, hpv, hpve, hnone]
  · intro pv v hpv hpve hsome hnum
    simp [validateJsonStructure, hs, hcond, h1, h2, hpv, hpve, hsome, hnum]
  · intro cp hcp hcpe hnone
    simp [validateJsonStructure, hs, hcond, h1, h2, hcp, hcpe, hnone]

/-- Claim C2 witness: the validator contract applied at two concrete
values — the all-required-fields value is accepted, the value missing its
required fields is rejected. -/
theorem validateJsonStructure_spec_witness :
    (validateJsonStructure c2Data "smallBusiness").isValid = true ∧
      (validateJsonStructure (Json.obj [("source_file", Json.str "x")])
          "smallBusiness").isValid = false :=
  ⟨((validateJsonStructure_spec c2Data "smallBusiness" _ rfl rfl rfl).1).trans rfl,
    ((validateJsonStructure_spec (Json.obj [("source_file", Json.str "x")])
        "smallBusiness" _ rfl rfl rfl).1).trans rfl⟩

/-- Claim C10 witness: a row whose column-D cell is the decodable JSON
array `"[1, 2]"` is classified `parse_error`. -/
theorem parseAndValidateJson_rejects_non_object_witness :
    ∃ results err,
      validateRowJsonColumns (fun _ => Except.error "unused") c10Row = .ok results ∧
        List.lookup "D" results = some (RowStatus.parseError (some err)) :=
  (parseAndValidateJson_rejects_non_object (fun _ => Except.error "unused")).2.2
    c10Row "D" "obligations" _ "[1, 2]" (by decide) rfl rfl
    (by
      intro c hc
      fin_cases hc
      · exact Or.inr rfl
      · exact Or.inl ⟨"x", rfl⟩
      · exact Or.inr rfl
      · exact Or.inl ⟨"[1, 2]", rfl⟩)
    rfl rfl rfl rfl

/-- Claim C1, counterexample.  `getCategories` does not return a list for
every parsed value: a null entry inside an object-map container throws a
TypeError (property access on null), and a declared-array schema whose
runtime container is an object map throws (`categories.forEach` is not a
function). -/
theorem getCategories_nonuniform_counterexample :
    getCategories exNullEntrySmallBusiness "smallBusiness" = .error .typeError ∧
      getCategories exArrayDeclaredMap "topPiid" = .error .typeError :=
  ⟨rfl, rfl⟩

/-- Claim C1 (amended): `getCategories` returns the empty list when the
schema has no categoriesPath or the container is absent or falsy; and when
the container is present with the declared kind and holds no null entries
it returns a flat list of { name, value, percentage, fiscalYears } records
of the same shape for both container kinds, with fiscalYears defaulting to
an empty object when the source entry has none; but a null entry, or a
declared-array schema whose runtime container is not an array, throws a
TypeError instead of producing a list. -/
theorem getCategories_spec (jsonData : Json) (schemaKey : String) (schema : ColumnSchema)
    (hs : COLUMN_SCHEMAS schemaKey = some schema) :
    (schema.categoriesPath = none → getCategories jsonData schemaKey = .ok []) ∧
      (∀ cp, schema.categoriesPath = some cp →
        ((cp == "") = true ∨ getNestedValue jsonData cp = none ∨
            (∃ cats, getNestedValue jsonData cp = some cats ∧ truthy cats = false)) →
        getCategories jsonData schemaKey = .ok []) ∧
      (∀ cp cats, schema.categoriesPath = some cp → (cp == "") = false →
        getNestedValue jsonData cp = some cats → truthy cats = true →
        containerWellFormed schema cats = true →
        ∃ l, getCategories jsonData schemaKey = .ok l ∧
          (∀ c ∈ l, c.fiscalYears = Json.obj [] ∨ truthy c.fiscalYears = true) ∧
          ((schema.categoryValueType == some "array") = true →
            ∃ items, cats = Json.arr items ∧ l = items.map (catFromArrayItemTotal schema)) ∧
          ((schema.categoryValueType == some "array") = false →
            l = (jsEntriesList cats).map (fun kv => catFromMapEntryTotal kv.1 kv.2))) := by
  refine ⟨?_, ?_, ?_⟩
  · intro hcp
    simp [getCategories, hs, hcp]
  · intro cp hcp hdis
    rcases hdis with hemp | hnone | ⟨cats, hcats, hf⟩
    · simp [getCategories, hs, hcp, hemp]
    · cases hemp2 : (cp == "") with
      | true => simp [getCategories, hs, hcp, hemp2]
      | false => simp [getCategories, hs, hcp, hemp2, hnone]
    · cases hemp2 : (cp == "") with
      | true => simp [getCategories, hs, hcp, hemp2]
      | false => simp [getCategories, hs, hcp, hemp2, hcats, hf]
  · intro cp cats hcp hcpe hcats ht hwf
    cases hk : (schema.categoryValueType == some "array") with
    | true =>
      simp only [containerWellFormed, hk, if_true] at hwf
      cases cats with
      | arr items =>
        refine ⟨items.map (catFromArrayItemTotal schema),
          getCategories_arr_branch jsonData schemaKey schema cp items hs hk hcp hcpe hcats
            (by simpa using hwf), ?_, ?_, ?_⟩
        · intro c hc
          obtain ⟨item, hitem, hceq⟩ := List.mem_map.mp hc
          subst hceq
          exact jsOrEmptyObj_default _
        · intro _
          exact ⟨items, rfl, rfl⟩
        · intro hk2
          simp [hk] at hk2
      | null => simp at hwf
      | bool b => simp at hwf
      | num q => simp at hwf
      | str s => simp at hwf
      | obj fs => simp at hwf
    | false =>
      have hwf2 : (jsEntriesList cats).all (fun kv => !kv.2.isNull) = true := by
        simpa [containerWellFormed, hk] using hwf
      refine ⟨(jsEntriesList cats).map (fun kv => catFromMapEntryTotal kv.1 kv.2),
        getCategories_map_branch jsonData schemaKey schema cp cats hs hk hcp hcpe hcats ht hwf2,
        ?_, ?_, ?_⟩
      · intro c hc
        obtain ⟨kv, hkv, hceq⟩ := List.mem_map.mp hc
        subst hceq
        exact jsOrEmptyObj_default _
      · intro hk2
        simp [hk] at hk2
      · intro _
        rfl

/-- Claim C1 witness: the Pattern B example container yields a list, and
each element's fiscalYears is an empty object or a truthy mapping. -/
theorem getCategories_spec_witness :
    ∃ l, getCategories exSumTier "sumTier" = .ok l ∧
      (∀ c ∈ l, c.fiscalYears = Json.obj [] ∨ truthy c.fiscalYears = true) := by
  obtain ⟨l, h1, h2, h3, h4⟩ := (getCategories_spec exSumTier "sumTier" _ rfl).2.2
    "tier_summaries"
    (Json.obj
      [("A", Json.obj [("total", Json.num 200), ("fiscal_years", Json.obj [("2024", Json.num 200)])]),
       ("B", Json.obj [("total", Json.num 100), ("fiscal_years", Json.obj [("2024", Json.num 100)])])])
    rfl rfl rfl rfl rfl
  exact ⟨l, h1, h2⟩

/-- Claim C5, counterexample.  Under the sumTier schema (no itemValueField,
so the claim demands the entry's `total` field, here 7), an entry that also
carries a `total_obligations` field has its value read from
`total_obligations` (5): the extraction is hard-coded, not driven by the
schema's itemValueField. -/
theorem getCategories_itemValueField_counterexample :
    getCategories c5Data "sumTier" =
        .ok [⟨some (Json.str "BIC"), some (Json.num 5), none, Json.obj []⟩] ∧
      (COLUMN_SCHEMAS "sumTier").map (fun schema => specItemValue schema c5Entry) =
        some (some (Json.num 7)) ∧
      (5 : Dec) ≠ 7 :=
  ⟨rfl, rfl, by decide⟩

/-- Claim C5 (amended): for every object-map schema, the value stored for a
map entry is the entry's `total_obligations` field when defined and its
`total` field otherwise, independent of the schema's itemValueField; this
coincides with the itemValueField-driven rule for a schema naming
`total_obligations` (fasOem) on entries carrying that field, and for
schemas without an itemValueField on entries lacking it. -/
theorem getCategories_mapEntry_value_spec (jsonData : Json) (schemaKey : String)
    (schema : ColumnSchema) (cp : String) (cats : Json)
    (hs : COLUMN_SCHEMAS schemaKey = some schema)
    (hno : (schema.categoryValueType == some "array") = false)
    (hcp : schema.categoriesPath = some cp) (hcpe : (cp == "") = false)
    (hcats : getNestedValue jsonData cp = some cats) (ht : truthy cats = true)
    (hwf : (jsEntriesList cats).all (fun kv => !kv.2.isNull) = true) :
    getCategories jsonData schemaKey =
        .ok ((jsEntriesList cats).map (fun kv => catFromMapEntryTotal kv.1 kv.2)) ∧
      (∀ kv : String × Json,
        (catFromMapEntryTotal kv.1 kv.2).value =
          match jsIndex kv.2 "total_obligations" with
          | some v => some v
          | none => jsIndex kv.2 "total") ∧
      (∀ (kv : String × Json) (v : Json), schema.itemValueField = some "total_obligations" →
        jsIndex kv.2 "total_obligations" = some v →
        (catFromMapEntryTotal kv.1 kv.2).value = specItemValue schema kv.2) ∧
      (∀ kv : String × Json, schema.itemValueField = none →
        jsIndex kv.2 "total_obligations" = none →
        (catFromMapEntryTotal kv.1 kv.2).value = specItemValue schema kv.2) := by
  refine ⟨getCategories_map_branch jsonData schemaKey schema cp cats hs hno hcp hcpe hcats ht hwf,
    fun kv => rfl, ?_, ?_⟩
  · intro kv v hf hv
    simp [catFromMapEntryTotal, mapEntryValue, specItemValue, hf, hv]
  · intro kv hf hv
    simp [catFromMapEntryTotal, mapEntryValue, specItemValue, hf, hv]

/-- Claim C5 witness: a sumType entry with only a `total` field — the
extracted value is 9, taken from `total`, as the default rule prescribes. -/
theorem getCategories_mapEntry_value_spec_witness :
    getCategories c5DefaultData "sumType" =
      .ok [⟨some (Json.str "Open Market"), some (Json.num 9), none, Json.obj []⟩] :=
  ((getCategories_mapEntry_value_spec c5DefaultData "sumType" _ "sum_type_summaries"
      (Json.obj [("Open Market", Json.obj [("total", Json.num 9)])])
      rfl rfl rfl rfl rfl rfl rfl).1).trans rfl

/-- Claim C7, counterexample.  `getFiscalYearData` does not return a
mapping for every object-map container: a null entry throws a TypeError
(`data.fiscal_years` on null). -/
theorem getFiscalYearData_null_entry_counterexample :
    getFiscalYearData exNullEntrySmallBusiness "smallBusiness" = .error .typeError :=
  rfl

/-- Claim C7 (amended): with a nonempty timeSeriesPath, the result is
exactly the value resolved at that path; with no timeSeriesPath and a
categoriesPath resolving to an object map of non-null entries whose truthy
`fiscal_years` fields are numeric year maps without duplicate keys, the
result is a mapping (absent when no entry contributes a year) whose value
at each year is the sum of the contributing entries' amounts for it; a
null entry throws a TypeError instead. -/
theorem getFiscalYearData_spec (jsonData : Json) (schemaKey : String) (schema : ColumnSchema)
    (hs : COLUMN_SCHEMAS schemaKey = some schema) :
    (∀ ts, schema.timeSeriesPath = some ts → (ts == "") = false →
      getFiscalYearData jsonData schemaKey = .ok (getNestedValue jsonData ts)) ∧
      (∀ cp fs, schema.timeSeriesPath = none → schema.categoriesPath = some cp →
        (cp == "") = false → getNestedValue jsonData cp = some (Json.obj fs) →
        entriesWellFormed fs = true →
        ∃ m, getFiscalYearData jsonData schemaKey =
            .ok (if m.isEmpty then none else some (Json.obj m)) ∧
          m.isEmpty = (allContribs fs).isEmpty ∧
          (∀ year, fyLookup m year =
            if (specYearContribs fs year).isEmpty then none
            else some (Json.num (specYearTotal fs year)))) := by
  refine ⟨?_, ?_⟩
  · intro ts hts htse
    simp [getFiscalYearData, hs, hts, htse]
  · intro cp fs hts hcp hcpe hcats hwf
    have hfold := exceptFold_fyMap fs [] (entriesWellFormed_not_null fs hwf)
    refine ⟨applyFy [] (allContribs fs), ?_, ?_, ?_⟩
    · simp [getFiscalYearData, hs, hts, hcp, hcpe, hcats, truthy, jsEntriesList, hfold]
    · cases hA : allContribs fs with
      | nil => simp [applyFy]
      | cons a L =>
        have hne : applyFy [] (a :: L) ≠ [] := by
          intro h
          simpa using (applyFy_nil_iff (a :: L)).mp h
        cases hA2 : applyFy [] (a :: L) with
        | nil => exact absurd hA2 hne
        | cons b M => rfl
    · intro year
      have hmaster := fyLookup_applyFy year (allContribs fs) []
        (fun kv h => absurd h (List.not_mem_nil kv)) (allContribs_num fs hwf)
      have hmap := contribs_decomp year fs hwf
      have hlen : ((allContribs fs).filter (fun kv => kv.1 == year)).isEmpty =
          (specYearContribs fs year).isEmpty := by
        rw [← hmap]
        cases (allContribs fs).filter (fun kv => kv.1 == year) with
        | nil => rfl
        | cons a L => rfl
      rw [hmaster]
      simp only [hlen, hmap]
      rfl

/-- Claim C7 witness: the Pattern B example container — two entries each
contributing to 2024 — aggregates to 300 at that year. -/
theorem getFiscalYearData_spec_witness :
    ∃ m, getFiscalYearData exSumTier "sumTier" =
        .ok (if m.isEmpty then none else some (Json.obj m)) ∧
      fyLookup m "2024" = some (Json.num 300) := by
  obtain ⟨m, h1, h2, h3⟩ := (getFiscalYearData_spec exSumTier "sumTier" _ rfl).2
    "tier_summaries"
    [("A", Json.obj [("total", Json.num 200), ("fiscal_years", Json.obj [("2024", Json.num 200)])]),
     ("B", Json.obj [("total", Json.num 100), ("fiscal_years", Json.obj [("2024", Json.num 100)])])]
    rfl rfl rfl rfl rfl
  refine ⟨m, h1, ?_⟩
  rw [h3 "2024"]
  rfl

/-- Claim C4, counterexample.  With no `total_obligated` in the obligations
column, the claimed rule takes the tier column's total (99), but the code
takes `summary.total_obligations` from the obligations column itself (42);
and a present-but-zero `total_obligated` is skipped by the truthiness test
although the claim forbids skipping a present earlier value. -/
theorem extractTotalObligations_counterexample :
    deriveTotalObligations c4Entity = Json.num 42 ∧
      specTotalObligations c4Obligations c4Tier = some (Json.num 99) ∧
      (42 : Dec) ≠ 99 ∧
      jsIndex c4ZeroObligations "total_obligated" = some (Json.num 0) ∧
      extractTotalObligations c4ZeroObligations = Json.num 42 :=
  ⟨rfl, rfl, by decide, rfl, rfl⟩

/-- Claim C4 (amended): `totalObligations` is derived from the obligations
column alone — the tier column is never consulted, so any two entities
with the same obligations column derive the same value — as the first
truthy (not merely present) of `total_obligated`,
`summary?.total_obligations` and the summed `fiscal_year_obligations`,
with 0 as the final fallback. -/
theorem extractTotalObligations_spec (j : Json) :
    (∀ e1 e2 : Entity,
      entityJson e1.fields "obligations" = entityJson e2.fields "obligations" →
      deriveTotalObligations e1 = deriveTotalObligations e2) ∧
      (truthy j = false → extractTotalObligations j = Json.num 0) ∧
      (∀ v, truthy j = true → jsIndex j "total_obligated" = some v → truthy v = true →
        extractTotalObligations j = v) ∧
      (∀ v, truthy j = true → jsTruthyOpt (jsIndex j "total_obligated") = false →
        optChainIndex (jsIndex j "summary") "total_obligations" = some v → truthy v = true →
        extractTotalObligations j = v) ∧
      (∀ fy, truthy j = true → jsTruthyOpt (jsIndex j "total_obligated") = false →
        jsTruthyOpt (optChainIndex (jsIndex j "summary") "total_obligations") = false →
        jsIndex j "fiscal_year_obligations" = some fy → truthy fy = true →
        extractTotalObligations j = Json.num (fyValuesSum fy)) ∧
      (truthy j = true → jsTruthyOpt (jsIndex j "total_obligated") = false →
        jsTruthyOpt (optChainIndex (jsIndex j "summary") "total_obligations") = false →
        jsTruthyOpt (jsIndex j "fiscal_year_obligations") = false →
        extractTotalObligations j = Json.num 0) := by
  refine ⟨?_, ?_, ?_, ?_, ?_, ?_⟩
  · intro e1 e2 h
    simp only [deriveTotalObligations, h]
  · intro h
    simp [extractTotalObligations, h]
  · intro v ht hv htr
    simp [extractTotalObligations, ht, hv, jsTruthyOpt, htr]
  · intro v ht h1 hsv htr
    have hsv2 : jsTruthyOpt (optChainIndex (jsIndex j "summary") "total_obligations") = true := by
      rw [hsv]
      simpa [jsTruthyOpt] using htr
    simp [extractTotalObligations, ht, h1, hsv2, hsv]
    intro hcontra
    simp [jsTruthyOpt, htr] at hcontra
  · intro fy ht h1 h2 hfy htr
    have hfy2 : jsTruthyOpt (jsIndex j "fiscal_year_obligations") = true := by
      rw [hfy]
      simpa [jsTruthyOpt] using htr
    simp [extractTotalObligations, ht, h1, h2, hfy2, hfy]
    intro hcontra
    simp [jsTruthyOpt, htr] at hcontra
  · intro ht h1 h2 h3
    simp [extractTotalObligations, ht, h1, h2, h3]

/-- Claim C4 witness: the Pattern A example — a truthy `total_obligated` of
1000 is taken as is. -/
theorem extractTotalObligations_spec_witness :
    extractTotalObligations exObligationsD = Json.num 1000 :=
  (extractTotalObligations_spec exObligationsD).2.2.1 (Json.num 1000) rfl rfl rfl

/-- Claim C3, counterexample.  A load whose Agency sheet reads fine but
whose OEM sheet read throws propagates the error, yet leaves the cache
partially updated: the agencies list has been replaced by the fresh one
while the oems list still holds the previous data — no rollback. -/
theorem loadAllData_partial_update_counterexample :
    (loadAllData envC3 2000 true cOld).2 = .error (.external "boom") ∧
      (loadAllData envC3 2000 true cOld).1.agencies.map (fun l => l.map Entity.name) =
        some ["NewAgency"] ∧
      cOld.agencies.map (fun l => l.map Entity.name) = some ["OldAgency"] ∧
      (loadAllData envC3 2000 true cOld).1.oems.map (fun l => l.map Entity.name) =
        some ["OldOem"] ∧
      (loadAllData envC3 2000 true cOld).1.isLoading = false ∧
      ("NewAgency" : String) ≠ "OldAgency" :=
  ⟨rfl, rfl, rfl, rfl, rfl, by decide⟩

/-- Claim C3 (amended): when a load attempt proceeds and fails, the error
propagates to the caller and the loading flag is cleared, but the cache is
not rolled back: the timestamp and every list not yet reassigned keep
their previous values, while every sheet already loaded before the failure
keeps its freshly assigned list — an open failure or an Agency-sheet
failure leaves all three lists unchanged, an OEM-sheet failure leaves the
agencies list replaced, and a Vendor-sheet failure leaves the agencies and
oems lists replaced. -/
theorem loadAllData_failure_spec (env : Env) (now : Int) (forceRefresh : Bool) (c : Cache)
    (hgo : (!forceRefresh && !needsRefresh now c) = false) (hld : c.isLoading = false) :
    (∀ m, env.openResult = .error m →
      loadAllData env now forceRefresh c =
        ({ c with isLoading := false }, .error (.external m))) ∧
      (∀ e, env.openResult = .ok () → loadEntitySheet env "agency" = .error e →
        loadAllData env now forceRefresh c = ({ c with isLoading := false }, .error e)) ∧
      (∀ ags e, env.openResult = .ok () → loadEntitySheet env "agency" = .ok ags →
        loadEntitySheet env "oem" = .error e →
        loadAllData env now forceRefresh c =
          ({ c with agencies := some ags, isLoading := false }, .error e)) ∧
      (∀ ags oms e, env.openResult = .ok () → loadEntitySheet env "agency" = .ok ags →
        loadEntitySheet env "oem" = .ok oms → loadEntitySheet env "vendor" = .error e →
        loadAllData env now forceRefresh c =
          ({ c with agencies := some ags, oems := some oms, isLoading := false },
            .error e)) := by
  refine ⟨?_, ?_, ?_, ?_⟩
  · intro m hop
    simp [loadAllData, hgo, hld, hop]
  · intro e hop ha
    simp [loadAllData, hgo, hld, hop, ha]
  · intro ags e hop ha ho
    simp [loadAllData, hgo, hld, hop, ha, ho]
  · intro ags oms e hop ha ho hv
    simp [loadAllData, hgo, hld, hop, ha, ho, hv]

/-- Claim C3 witness: the OEM-failure case at a concrete environment and a
previously fully loaded cache. -/
theorem loadAllData_failure_spec_witness :
    ∃ ags, loadAllData envC3 2000 true cOld =
      ({ cOld with agencies := some ags, isLoading := false },
        .error (.external "boom")) := by
  obtain ⟨-, -, h3, -⟩ := loadAllData_failure_spec envC3 2000 true cOld rfl rfl
  exact ⟨_, h3 _ (.external "boom") rfl rfl rfl⟩

/-- Claim C9: with all three lists cached, a set (positive, as every stored
`Date.now()` is) timestamp and age at most the TTL, `getEntities` without
forced refresh returns the cached list objects and leaves the cache
unchanged, for every environment alike — the load path, and with it any
row-source read, is not taken; and a cache with a set positive timestamp
is stale exactly when a list is missing or the age exceeds the TTL, while
an unset timestamp is always stale. -/
theorem getEntities_cache_fresh (now t : Int) (c : Cache)
    (ht : c.lastUpdated = some t) (hpos : 0 < t)
    (ha : c.agencies.isSome = true) (ho : c.oems.isSome = true)
    (hv : c.vendors.isSome = true) (hage : now - t ≤ TTL) :
    (∀ (env : Env) (entityType : Option String),
      getEntities env now entityType false c = (c, selectEntities c entityType)) ∧
      selectEntities c (some "agency") = .ok c.agencies ∧
      selectEntities c (some "oem") = .ok c.oems ∧
      selectEntities c (some "vendor") = .ok c.vendors ∧
      (∀ (now2 t2 : Int) (c2 : Cache), c2.lastUpdated = some t2 → 0 < t2 →
        (needsRefresh now2 c2 = true ↔
          (c2.agencies = none ∨ c2.oems = none ∨ c2.vendors = none ∨ TTL < now2 - t2))) ∧
      (∀ (now2 : Int) (c2 : Cache), c2.lastUpdated = none →
        needsRefresh now2 c2 = true) := by
  have hnr : needsRefresh now c = false := by
    obtain ⟨la, hla⟩ := Option.isSome_iff_exists.mp ha
    obtain ⟨lo, hlo⟩ := Option.isSome_iff_exists.mp ho
    obtain ⟨lv, hlv⟩ := Option.isSome_iff_exists.mp hv
    have ht0 : (t == 0) = false := by
      have hne : t ≠ 0 := by omega
      simpa using hne
    have hlt : ¬ TTL < now - t := not_lt.mpr hage
    simp [needsRefresh, ht, ht0, hla, hlo, hlv, hlt]
  refine ⟨?_, rfl, rfl, rfl, ?_, ?_⟩
  · intro env entityType
    simp [getEntities, loadAllData, hnr]
  · intro now2 t2 c2 ht2 hpos2
    have ht02 : (t2 == 0) = false := by
      have hne : t2 ≠ 0 := by omega
      simpa using hne
    cases hA : c2.agencies with
    | none => simp [needsRefresh, ht2, ht02, hA]
    | some la =>
      cases hO : c2.oems with
      | none => simp [needsRefresh, ht2, ht02, hA, hO]
      | some lo =>
        cases hV : c2.vendors with
        | none => simp [needsRefresh, ht2, ht02, hA, hO, hV]
        | some lv => simp [needsRefresh, ht2, ht02, hA, hO, hV]
  · intro now2 c2 h
    simp [needsRefresh, h]

/-- Claim C9 witness: a fully loaded cache stamped at 1000, read at 1500
(well within the TTL), through an environment whose reads would fail —
the cached agencies list comes back and the cache is untouched. -/
theorem getEntities_cache_fresh_witness :
    getEntities envC3 1500 (some "agency") false cOld = (cOld, .ok cOld.agencies) := by
  have h := getEntities_cache_fresh 1500 1000 cOld rfl (by decide) rfl rfl rfl (by decide)
  rw [h.1 envC3 (some "agency"), h.2.1]

end OneGov
